import Mathlib

/-!
Verification development for the intake-conversation orchestration core
(`services/orchestration.py`): the conversational flow state machine, the
lead qualification scorer, the per-platform notification gate, phone
normalization, and the `process_message` entry point.

Conventions of the shallow embedding:
* Python strings are Lean `String`s; `str.strip` is `pyStrip`, `str.split()`
  is `pySplit`, `str.lower()` is `pyLower` (all defined below so that their
  behaviour matches Python's on the character classes the program uses).
* `lead_data` / session dictionaries become records with `""` / `false`
  defaults (`dict.get(k, default)` on a missing key and a key holding the
  empty string behave identically everywhere this program reads them).
* The qualification score accumulates literal `0.1` float increments in the
  source; it is represented here exactly, in tenths (`score += 0.1` becomes
  `score + 1`, the `min(score, 1.0)` cap becomes `min score 10`, and the
  gate thresholds `0.7` / `0.8` become `7` / `8`).
* Blocking collaborators (notification sink, WhatsApp transport, wall-clock
  hour used by the greeting, and the possibility of an unexpected top-level
  exception) are an explicit `Env` record; persistence (`save_user_session`)
  and sink invocations are recorded in an event log so that ordering claims
  ("persisted before the flow continues") are statable.
* The only statements Python can raise in the modelled code are
  `some_string.split()[0]` on a whitespace-only truthy string; these
  `IndexError` paths are modelled with `Option`/`Except` and routed to the
  same `except` handlers as in the source.
-/

/-- Python `str.isdigit` on the ASCII digits this program manipulates. -/
def isDigitChar (c : Char) : Bool := c.isDigit

/-- Python whitespace test (`str.strip`/`str.split` with no argument). -/
def isWS (c : Char) : Bool := c.isWhitespace

/-- Drop leading whitespace of a character list. -/
def dropLeadWS (l : List Char) : List Char := l.dropWhile isWS

/-- Python `str.strip` on the underlying character list. -/
def pyStripL (l : List Char) : List Char :=
  ((dropLeadWS l).reverse.dropWhile isWS).reverse

/-- Python `str.strip`. -/
def pyStrip (s : String) : String := String.mk (pyStripL s.data)

/-- Worker for Python `str.split()`: `cur` is the reversed token being
accumulated; whitespace flushes it, the end flushes the remainder. -/
def pySplitAux : List Char → List Char → List (List Char)
  | [], cur => if cur.isEmpty then [] else [cur.reverse]
  | c :: rest, cur =>
    if isWS c then
      if cur.isEmpty then pySplitAux rest [] else cur.reverse :: pySplitAux rest []
    else pySplitAux rest (c :: cur)

/-- Python `str.split()` (split on whitespace runs, no empty tokens) on the
underlying character list. -/
def pySplitL (l : List Char) : List (List Char) := pySplitAux l []

/-- Python `str.split()`. -/
def pySplit (s : String) : List String := (pySplitL s.data).map String.mk

/-- Python `str.lower()`, restricted to ASCII: `Char.toLower` lowercases
only `A`-`Z`, while `str.lower` also lowercases non-ASCII letters such as
`Ú`. The divergence is narrow — it only affects keyword matching for
inputs holding accented *uppercase* letters (e.g. the program accepts
`SAÚDE` where this model does not) — and no theorem below leans on it:
every proof treats the keyword predicates opaquely or instantiates them on
lowercase inputs. -/
def pyLower (s : String) : String := String.mk (s.data.map Char.toLower)

/-- Whether `sub` occurs as a contiguous run inside `l`
(Python `sub in s` on the underlying lists). -/
def containsSubL (l sub : List Char) : Bool :=
  (List.range (l.length + 1)).any fun i => sub.isPrefixOf (l.drop i)

/-- Python substring containment `sub in s`. -/
def containsSub (s sub : String) : Bool := containsSubL s.data sub.data

/-- Length of the longest run of consecutive digits, accumulator form. -/
def maxDigitRunAux : List Char → Nat → Nat → Nat
  | [], cur, best => max cur best
  | c :: rest, cur, best =>
    if isDigitChar c then maxDigitRunAux rest (cur + 1) (max best (cur + 1))
    else maxDigitRunAux rest 0 best

/-- Length of the longest run of consecutive digit characters in `s`. -/
def maxDigitRun (s : String) : Nat := maxDigitRunAux s.data 0 0

/-- Truth of Python `re.search(r"\d{10,11}", s)`: the pattern matches
somewhere iff some position starts at least 10 consecutive digits,
iff the longest digit run has length at least 10. -/
def hasPhoneDigits (s : String) : Bool := 10 ≤ maxDigitRun s

/-- Whether a match of `\S+@\S+\.\S+` sits at `@`-position `i` and
`.`-position `j` of `l`: a non-space character right before the `@`, a
non-empty all-non-space stretch between `@` and `.`, and a non-space
character right after the `.`. -/
def looseEmailAt (l : List Char) (i j : Nat) : Bool :=
  1 ≤ i && i + 2 ≤ j && j + 1 < l.length &&
  l.getD i ' ' == '@' && l.getD j ' ' == '.' &&
  !isWS (l.getD (i - 1) ' ') && !isWS (l.getD (j + 1) ' ') &&
  (List.range' (i + 1) (j - (i + 1))).all fun t => !isWS (l.getD t ' ')

/-- Truth of Python `re.search(r"\S+@\S+\.\S+", s)` (the scorer's loose
email shape): some `@` and some later `.` witness a match. -/
def hasLooseEmail (s : String) : Bool :=
  (List.range s.length).any fun i =>
    (List.range s.length).any fun j => looseEmailAt s.data i j

/-- Character class `[A-Za-z0-9._%+-]` of the strict email regex. -/
def isEmailLocalChar (c : Char) : Bool :=
  c.isAlpha || c.isDigit || c == '.' || c == '_' || c == '%' || c == '+' || c == '-'

/-- Character class `[A-Za-z0-9.-]` of the strict email regex. -/
def isEmailDomainChar (c : Char) : Bool :=
  c.isAlpha || c.isDigit || c == '.' || c == '-'

/-- Whether a match of `[A-Za-z0-9._%+-]+@[A-Za-z0-9.-]+\.[A-Za-z]{2,}`
uses `@`-position `i` and final-dot position `j` of `l`. -/
def strictEmailAt (l : List Char) (i j : Nat) : Bool :=
  1 ≤ i && i + 2 ≤ j && j + 2 < l.length &&
  l.getD i ' ' == '@' && l.getD j ' ' == '.' &&
  isEmailLocalChar (l.getD (i - 1) ' ') &&
  (l.getD (j + 1) ' ').isAlpha && (l.getD (j + 2) ' ').isAlpha &&
  (List.range' (i + 1) (j - (i + 1))).all fun t => isEmailDomainChar (l.getD t ' ')

/-- Truth of Python `re.search` with the strict email regex used by the
`step2_contact` validator and by contact extraction. -/
def hasStrictEmail (s : String) : Bool :=
  (List.range s.length).any fun i =>
    (List.range s.length).any fun j => strictEmailAt s.data i j

/-- Whether at least `n` consecutive digits start at position `i` of `l`. -/
def digitRunAt (l : List Char) (i n : Nat) : Bool :=
  n + i ≤ l.length && ((l.drop i).take n).all isDigitChar

/-- Value of the first match of `re.search(r"(\d{10,11})", s)`: the regex
scans left to right, and at the first position where 10 consecutive digits
start it greedily takes 11 digits when available, else 10. Returns `""`
when there is no match. -/
def extractFirstPhone (s : String) : String :=
  match (List.range s.length).find? (fun i => digitRunAt s.data i 10) with
  | none => ""
  | some i =>
    if digitRunAt s.data i 11 then String.mk ((s.data.drop i).take 11)
    else String.mk ((s.data.drop i).take 10)

/-- Value of the first match of the strict email regex in `s` (used only to
populate `lead_data["email"]`, which no downstream decision reads): the
local part extends maximally left from the first viable `@`, the final dot
is the last viable one for that `@`, and the top-level-domain run extends
maximally right. Returns `""` when there is no match. -/
def extractFirstEmail (s : String) : String :=
  let l := s.data
  match (List.range s.length).find? (fun i =>
      (List.range s.length).any fun j => strictEmailAt l i j) with
  | none => ""
  | some i =>
    match ((List.range s.length).reverse).find? (fun j => strictEmailAt l i j) with
    | none => ""
    | some j =>
      let localStart := i - ((l.take i).reverse.takeWhile isEmailLocalChar).length
      let tldLen := ((l.drop (j + 1)).takeWhile Char.isAlpha).length
      String.mk ((l.drop localStart).take (j + 1 + tldLen - localStart))

/-- Python `"".join(filter(str.isdigit, s))`. -/
def filterDigits (s : String) : String := String.mk (s.data.filter isDigitChar)

/-- Source `_format_brazilian_phone`: strip non-digits, drop one leading
`"55"` country code, then normalize by length (pad 8-digit local numbers
that start with 6/7/8/9 with the mobile `9` when an area code is present),
re-prefixing `"55"`. -/
def format_brazilian_phone (phone : String) : String :=
  if phone = "" then ""
  else
    let pc0 := phone.data.filter isDigitChar
    let pc := if pc0.take 2 = ['5', '5'] then pc0.drop 2 else pc0
    if pc.length = 8 then String.mk ('5' :: '5' :: pc)
    else if pc.length = 9 then String.mk ('5' :: '5' :: pc)
    else if pc.length = 10 then
      let ddd := pc.take 2
      let number := pc.drop 2
      let number :=
        if number.length = 8 && (number.getD 0 ' ' ∈ ['6', '7', '8', '9']) then
          '9' :: number
        else number
      String.mk ('5' :: '5' :: (ddd ++ number))
    else if pc.length = 11 then
      let ddd := pc.take 2
      let number := pc.drop 2
      String.mk ('5' :: '5' :: (ddd ++ number))
    else String.mk ('5' :: '5' :: pc)

/-- The country-code strip step of `_format_brazilian_phone` in isolation. -/
def strip55L (l : List Char) : List Char :=
  if l.take 2 = ['5', '5'] then l.drop 2 else l

/-- The by-length normalization step of `_format_brazilian_phone` in
isolation: what the function appends after the `"55"` prefix. -/
def phoneTail (pc : List Char) : List Char :=
  if pc.length = 8 then pc
  else if pc.length = 9 then pc
  else if pc.length = 10 then
    let ddd := pc.take 2
    let number := pc.drop 2
    if number.length = 8 && (number.getD 0 ' ' ∈ ['6', '7', '8', '9']) then ddd ++ '9' :: number
    else ddd ++ number
  else if pc.length = 11 then pc.take 2 ++ pc.drop 2
  else pc

/-! ## Data model -/

/-- The `lead_data` mapping: field name to collected text. `""` plays the
role of an absent key (every read in the source either defaults a missing
key to `""` or tests truthiness, so the two are indistinguishable there). -/
structure LeadData where
  identification : String := ""
  contact_info : String := ""
  area_qualification : String := ""
  case_details : String := ""
  confirmation : String := ""
  phone : String := ""
  email : String := ""
deriving DecidableEq

/-- One conversation session, as created by `_get_or_create_session`
(timestamps are not modelled; no claim mentions them). -/
structure Session where
  session_id : String := ""
  platform : String := "web"
  current_step : String := "greeting"
  lead_data : LeadData := {}
  message_count : Nat := 0
  flow_completed : Bool := false
  phone_submitted : Bool := false
  lawyers_notified : Bool := false
  first_interaction : Bool := true
  phone_number : String := ""
  phone_formatted : String := ""
  lead_qualified : Bool := false
deriving DecidableEq

/-- Observable side effects of one turn: a `save_user_session` call with the
session value being persisted, or an invocation of the lawyer-notification
sink. -/
inductive Event where
  | save (s : Session)
  | sink
deriving DecidableEq

/-- External collaborator behaviour for one turn: the wall-clock hour used
by the greeting, the notification sink outcome, the WhatsApp transport
outcome, and whether an unexpected exception interrupts `process_message`. -/
structure Env where
  hour : Nat := 10
  sinkSuccess : Bool := true
  transportSuccess : Bool := true
  raiseUnexpected : Bool := false
deriving DecidableEq

/-- Decision of `should_notify_lawyers`. -/
structure GateResult where
  should_notify : Bool
  reason : String
deriving DecidableEq

/-! ## Qualification scorer -/

/-- Scorer block "Nome completo (0.2)": `name = identification.strip()`,
`+0.1` when `len(name) >= 3`, `+0.1` more when `len(name.split()) >= 2`,
threading the running score as the source does. -/
def score_id_block (lead : LeadData) (score : Nat) : Nat :=
  let name := pyStrip lead.identification
  let score := if 3 ≤ name.length then score + 1 else score
  if 2 ≤ (pySplit name).length then score + 1 else score

/-- Scorer block "Informações de contato (0.3)": `+0.1` when the stripped
contact is truthy, `+0.1` more on a 10-11 digit run, `+0.1` more on an
email-shaped substring. -/
def score_contact_block (lead : LeadData) (score : Nat) : Nat :=
  let contact := pyStrip lead.contact_info
  if contact ≠ "" then
    let score := score + 1
    let score := if hasPhoneDigits contact then score + 1 else score
    if hasLooseEmail contact then score + 1 else score
  else score

/-- Scorer block "Área jurídica identificada (0.2)": `+0.1` when the
stripped area is truthy, `+0.1` more when a supported practice-area
keyword occurs in its lowercase form. -/
def score_area_block (lead : LeadData) (score : Nat) : Nat :=
  let area := pyStrip lead.area_qualification
  if area ≠ "" then
    let score := score + 1
    if ["penal", "saude", "saúde", "criminal", "plano"].any
        (fun keyword => containsSub (pyLower area) keyword) then score + 1
    else score
  else score

/-- Scorer block "Detalhes do caso (0.3)": `+0.1` when the stripped details
are truthy, `+0.1` more at length >= 20, `+0.1` more at length >= 50. -/
def score_detail_block (lead : LeadData) (score : Nat) : Nat :=
  let details := pyStrip lead.case_details
  if details ≠ "" then
    let score := score + 1
    let score := if 20 ≤ details.length then score + 1 else score
    if 50 ≤ details.length then score + 1 else score
  else score

/-- Source `_calculate_qualification_score`, represented exactly in tenths
(each `score += 0.1` is `+ 1`, `min(score, 1.0)` is `min score 10`): the
four field blocks run in source order over the running score, then the
cap. Deterministic and side-effect free; `platform` is accepted and
ignored as in the source. -/
def calculate_qualification_score_tenths (lead : LeadData) (platform : String) : Nat :=
  let score : Nat := 0
  let score := score_id_block lead score
  let score := score_contact_block lead score
  let score := score_area_block lead score
  let score := score_detail_block lead score
  min score 10

/-- The score as the rational the source's float denotes (0.0 to 1.0). -/
def calculate_qualification_score (lead : LeadData) (platform : String) : ℚ :=
  (calculate_qualification_score_tenths lead platform : ℚ) / 10

/-! ## Notification gate -/

/-- Source `should_notify_lawyers`: short-circuit on the latch, then
platform-specific criteria. The source compares the accumulated binary64
score against the float literals `0.7` and `0.8`; the score after k
sequential `score += 0.1` additions depends only on k, and in binary64 the
7th partial sum is exactly the double `0.7` (0x1.6666666666666p-1) while
the 8th is 0x1.9999999999999p-1 = 0.7999999999999999, one ulp below the
double `0.8` (0x1.999999999999ap-1). Hence `score >= 0.7` holds iff the
score has at least 7 tenths, but `score >= 0.8` holds iff it has at least
9 tenths — the web threshold is rendered as `9 ≤`, not `8 ≤`. -/
def should_notify_lawyers (session : Session) (platform : String) : GateResult :=
  if session.lawyers_notified then
    { should_notify := false, reason := "already_notified" }
  else
    let lead := session.lead_data
    if platform = "web" then
      let has_required_fields :=
        lead.identification != "" && lead.contact_info != "" &&
        lead.area_qualification != "" && lead.case_details != ""
      let criteria_met :=
        session.flow_completed && has_required_fields &&
        decide (3 ≤ (pyStrip lead.identification).length) &&
        decide (15 ≤ (pyStrip lead.case_details).length)
      let qualification_score := calculate_qualification_score_tenths lead platform
      if criteria_met && decide (9 ≤ qualification_score) then
        { should_notify := true, reason := "web_flow_completed" }
      else
        { should_notify := false, reason := "not_qualified_yet" }
    else if platform = "whatsapp" then
      let has_required_fields :=
        lead.identification != "" && lead.contact_info != "" &&
        lead.area_qualification != ""
      let engagement_criteria :=
        decide (4 ≤ session.message_count) && has_required_fields &&
        decide (3 ≤ (pyStrip lead.identification).length) &&
        decide (3 ≤ (pyStrip lead.area_qualification).length)
      let advanced_step :=
        ["step4_details", "step5_confirmation", "completed"].contains session.current_step
      let qualification_score := calculate_qualification_score_tenths lead platform
      if engagement_criteria && advanced_step && decide (7 ≤ qualification_score) then
        { should_notify := true, reason := "whatsapp_qualified" }
      else
        { should_notify := false, reason := "not_qualified_yet" }
    else
      { should_notify := false, reason := "not_qualified_yet" }

/-! ## Flow state machine -/

/-- Source `_get_personalized_greeting`: time-of-day salutation plus the
fixed strategic greeting that ends by asking for the full name. -/
def get_personalized_greeting (hour : Nat) : String :=
  let greeting :=
    if 5 ≤ hour ∧ hour < 12 then "Bom dia"
    else if 12 ≤ hour ∧ hour < 18 then "Boa tarde"
    else "Boa noite"
  greeting ++ "! 👋\n\nBem-vindo ao m.lima Advogados Associados.\n\nVocê está no lugar certo! Somos especialistas em Direito Penal e da Saúde, com mais de 1000 casos resolvidos e uma equipe experiente pronta para te ajudar.\n\n💼 Sabemos que questões jurídicas podem ser urgentes e complexas, por isso oferecemos:\n• Atendimento ágil e personalizado\n• Estratégias focadas em resultados\n• Acompanhamento completo do seu caso\n\nPara que eu possa direcionar você ao advogado especialista ideal e acelerar a solução do seu caso, preciso conhecer um pouco mais sobre sua situação.\n\nQual é o seu nome completo? 😊"

/-- One entry of the `_get_flow_steps` table. -/
structure FlowStep where
  question : String
  field : Option String
  next_step : String
deriving DecidableEq

def step1_name_question : String := "Qual é o seu nome completo? 😊"

def step2_contact_question : String := "Prazer em conhecê-lo, {user_name}! 🤝\n\nAgora preciso de suas informações de contato para darmos continuidade:\n\n📱 Qual seu melhor WhatsApp?\n📧 E seu e-mail principal?\n\nPode me passar essas duas informações?"

def step3_area_question : String := "Perfeito, {user_name}! 👍\n\nEm qual área do direito você precisa de nossa ajuda?\n\n⚖️ Direito Penal (crimes, investigações, defesas)\n🏥 Direito da Saúde (planos de saúde, ações médicas, liminares)\n\nQual dessas áreas tem a ver com sua situação?"

def step4_details_question : String := "Entendi, {user_name}. 💼\n\nPara nossos advogados já terem uma visão completa, me conte:\n\n• Sua situação já está na justiça ou é algo que acabou de acontecer?\n• Tem algum prazo urgente ou audiência marcada?\n• Em que cidade isso está ocorrendo?\n\nFique à vontade para me contar os detalhes! 🤝"

def step5_confirmation_question : String := "Obrigado por todos esses detalhes, {user_name}! 🙏\n\nSituações como a sua realmente precisam de atenção especializada e rápida.\n\nTenho uma excelente notícia: nossa equipe já resolveu dezenas de casos similares com ótimos resultados! ✅\n\nVou registrar tudo para que o advogado responsável já entenda completamente seu caso e possa te ajudar com agilidade.\n\nEm alguns minutos você estará falando diretamente com um especialista. Podemos prosseguir? 🚀"

def phone_collection_question : String := "Para finalizar, preciso do seu WhatsApp com DDD (ex: 11999999999):"

/-- Source `_get_flow_steps`, as a lookup from step name to its entry. -/
def get_flow_steps (hour : Nat) (step : String) : Option FlowStep :=
  if step = "greeting" then
    some { question := get_personalized_greeting hour, field := none, next_step := "step1_name" }
  else if step = "step1_name" then
    some { question := step1_name_question, field := some "identification", next_step := "step2_contact" }
  else if step = "step2_contact" then
    some { question := step2_contact_question, field := some "contact_info", next_step := "step3_area" }
  else if step = "step3_area" then
    some { question := step3_area_question, field := some "area_qualification", next_step := "step4_details" }
  else if step = "step4_details" then
    some { question := step4_details_question, field := some "case_details", next_step := "step5_confirmation" }
  else if step = "step5_confirmation" then
    some { question := step5_confirmation_question, field := some "confirmation", next_step := "completed" }
  else if step = "phone_collection" then
    some { question := phone_collection_question, field := some "phone", next_step := "completed" }
  else none

/-- Source `_validate_answer`: shared empty/too-short rejection, then the
per-step rule, returning `(is_valid, error_message)`. -/
def validate_answer (answer : String) (step : String) : Bool × String :=
  if answer = "" ∨ (pyStrip answer).length < 2 then
    (false, "Por favor, forneça uma resposta válida.")
  else if step = "step1_name" then
    if (pySplit answer).length < 2 then
      (false, "Por favor, informe seu nome completo (nome e sobrenome).")
    else (true, "")
  else if step = "step2_contact" then
    let has_phone := hasPhoneDigits answer
    let has_email := hasStrictEmail answer
    if !(has_phone || has_email) then
      (false, "Por favor, informe seu telefone (com DDD) e/ou e-mail.")
    else (true, "")
  else if step = "step3_area" then
    if !(["penal", "saude", "saúde", "criminal", "liminar", "medic", "plano"].any
        fun keyword => containsSub (pyLower answer) keyword) then
      (false, "Por favor, escolha entre Direito Penal ou Direito da Saúde.")
    else (true, "")
  else if step = "step4_details" then
    if (pyStrip answer).length < 15 then
      (false, "Por favor, me conte mais detalhes sobre sua situação para que possamos ajudá-lo melhor.")
    else (true, "")
  else if step = "step5_confirmation" then
    if !(["sim", "ok", "pode", "vamos", "claro", "aceito", "concordo"].any
        fun word => containsSub (pyLower answer) word) then
      (false, "Por favor, confirme se podemos prosseguir (responda \x27sim\x27 ou \x27ok\x27).")
    else (true, "")
  else if step = "phone_collection" then
    if (filterDigits answer).length < 10 ∨ 13 < (filterDigits answer).length then
      (false, "Por favor, digite um número de WhatsApp válido com DDD (ex: 11999999999).")
    else (true, "")
  else (true, "")

/-- Source `_extract_contact_info`: first phone-shaped digit run and first
strict-email match of the text. -/
def extract_contact_info (contact_text : String) : String × String :=
  (extractFirstPhone contact_text, extractFirstEmail contact_text)

/-- Writing `lead_data[field] = value`. -/
def setLeadField (lead : LeadData) (field value : String) : LeadData :=
  if field = "identification" then { lead with identification := value }
  else if field = "contact_info" then { lead with contact_info := value }
  else if field = "area_qualification" then { lead with area_qualification := value }
  else if field = "case_details" then { lead with case_details := value }
  else if field = "confirmation" then { lead with confirmation := value }
  else if field = "phone" then { lead with phone := value }
  else if field = "email" then { lead with email := value }
  else lead

/-- The inline Python `lead.get("identification","").split()[0] if
lead.get("identification") else ""`; `none` is the `IndexError` raised when
the identification is truthy but whitespace-only. -/
def firstTokenIfTruthy (s : String) : Option String :=
  if s = "" then some "" else (pySplit s).head?

/-- The finalization prologue `user_name = lead.get("identification",
"Cliente"); first_name = user_name.split()[0] if user_name else "Cliente"`
(an absent key and a present-but-falsy value both end at `"Cliente"`);
`none` is the `IndexError` on a truthy whitespace-only value. -/
def firstNameOrCliente (s : String) : Option String :=
  if s = "" then some "Cliente" else (pySplit s).head?

/-- Source `_interpolate_message`: substitute the first name for
`{user_name}` and the practice area for `{area}`; its internal
`IndexError` (whitespace-only truthy name) is caught locally and returns
the message unchanged. -/
def interpolate_message (message : String) (lead : LeadData) : String :=
  if message = "" then "Como posso ajudá-lo?"
  else
    let user_name := lead.identification
    if user_name != "" && containsSub message "{user_name}" then
      match pySplit user_name with
      | [] => message
      | first_name :: _ =>
        let message := message.replace "{user_name}" first_name
        if lead.area_qualification != "" && containsSub message "{area}" then
          message.replace "{area}" lead.area_qualification
        else message
    else
      if lead.area_qualification != "" && containsSub message "{area}" then
        message.replace "{area}" lead.area_qualification
      else message

/-! ## Notification and finalization -/

/-- Outcome of `notify_lawyers_if_qualified`. -/
structure NotifyOut where
  session : Session
  notified : Bool
  success : Bool
  events : List Event
deriving DecidableEq

/-- Source `notify_lawyers_if_qualified`: evaluate the gate; on a positive
evaluation invoke the sink, and only on sink success set the
`lawyers_notified` latch and persist it immediately. A sink exception is
indistinguishable here from a failure result (in both, the latch stays
false and the flow continues). -/
def notify_lawyers_if_qualified (env : Env) (session : Session) (platform : String) : NotifyOut :=
  let check := should_notify_lawyers session platform
  if !check.should_notify then
    { session := session, notified := false, success := false, events := [] }
  else if env.sinkSuccess then
    let session := { session with lawyers_notified := true }
    { session := session, notified := true, success := true,
      events := [Event.sink, Event.save session] }
  else
    { session := session, notified := true, success := false, events := [Event.sink] }

/-- Source `_handle_lead_finalization`. An `Except.error` is the
`IndexError` raised on a truthy whitespace-only identification, which the
function's own handler re-raises while building its fallback text; it
carries the session and events accumulated before the raise (none: the
raise happens before any mutation). The lead snapshot persisted by
`save_lead_data` and the strategic WhatsApp text are external payloads no
decision reads, so only the transport outcome (which selects the
confirmation wording) is modelled. -/
def handle_lead_finalization (env : Env) (session : Session) :
    Except (Session × List Event) (Session × String × List Event) :=
  match firstNameOrCliente session.lead_data.identification with
  | none => Except.error (session, [])
  | some first_name =>
    let lead := session.lead_data
    let phone_clean :=
      if lead.phone != "" then lead.phone else extractFirstPhone lead.contact_info
    if phone_clean = "" ∨ phone_clean.length < 10 then
      Except.ok (session,
        "Para finalizar, " ++ first_name ++ ", preciso do seu WhatsApp com DDD (ex: 11999999999):",
        [])
    else
      let phone_formatted := format_brazilian_phone phone_clean
      let session := { session with
        phone_number := phone_clean, phone_formatted := phone_formatted,
        phone_submitted := true, lead_qualified := true }
      let ev0 := [Event.save session]
      let n := notify_lawyers_if_qualified env session session.platform
      let session := n.session
      let whatsapp_success := env.transportSuccess
      let notification_status :=
        if n.notified && n.success then " ⚡ Nossa equipe foi imediatamente notificada!" else ""
      let final_message :=
        "Perfeito, " ++ first_name ++ "! ✅\n\nTodas suas informações foram registradas com sucesso" ++
        notification_status ++
        "\n\nUm advogado experiente do m.lima entrará em contato com você em breve para dar prosseguimento ao seu caso com toda atenção necessária.\n\n" ++
        (if whatsapp_success then "📱 Mensagem de confirmação enviada no seu WhatsApp!"
         else "📝 Suas informações foram salvas com segurança.") ++
        "\n\nVocê fez a escolha certa ao confiar no escritório m.lima para cuidar do seu caso! 🤝\n\nEm alguns minutos, um especialista entrará em contato."
      Except.ok (session, final_message, ev0 ++ n.events)

/-! ## Conversation flow -/

/-- Result of one `_process_conversation_flow` turn. -/
structure FlowOut where
  session : Session
  response : String
  events : List Event
deriving DecidableEq

/-- The first-interaction branch of `_process_conversation_flow`: consume
the flag, advance to `step1_name`, persist, and ask the first question. -/
def flow_first_interaction (s0 : Session) : FlowOut :=
  let s := { s0 with first_interaction := false, current_step := "step1_name" }
  { session := s, response := step1_name_question, events := [Event.save s] }

/-- The `greeting` re-entry branch ("não deveria acontecer, mas por
segurança"): advance to `step1_name`, persist, re-ask the name question. -/
def flow_greeting_reentry (s0 : Session) : FlowOut :=
  let s := { s0 with current_step := "step1_name" }
  { session := s, response := step1_name_question, events := [Event.save s] }

/-- The `completed` branch: possibly redirect to `phone_collection`, else
thank the user; the `user_name` computed first can raise (whitespace-only
truthy identification), landing in the flow-level `except`. -/
def flow_completed_branch (env : Env) (s0 : Session) : FlowOut :=
  match firstTokenIfTruthy s0.lead_data.identification with
  | none => { session := s0, response := get_personalized_greeting env.hour, events := [] }
  | some user_name =>
    if !s0.phone_submitted && s0.lead_data.phone == "" then
      let s := { s0 with current_step := "phone_collection" }
      { session := s, response := phone_collection_question, events := [Event.save s] }
    else
      { session := s0,
        response := "Obrigado, " ++ user_name ++
          "! Nossa equipe já foi notificada e entrará em contato em breve. 😊",
        events := [] }

/-- The `phone_collection` branch: validate, store the digits, mark the
flow completed, persist, and finalize. -/
def flow_phone_collection (env : Env) (s0 : Session) (message : String) : FlowOut :=
  let v := validate_answer message s0.current_step
  if !v.1 then { session := s0, response := v.2, events := [] }
  else
    let phone_clean := filterDigits message
    let lead := { s0.lead_data with phone := phone_clean }
    let s := { s0 with lead_data := lead, phone_submitted := true, current_step := "completed" }
    match handle_lead_finalization env s with
    | Except.error (s2, ev) =>
      { session := s2, response := get_personalized_greeting env.hour,
        events := Event.save s :: ev }
    | Except.ok (s2, resp, ev) =>
      { session := s2, response := resp, events := Event.save s :: ev }

/-- The tail of a successful scripted-step turn, after the field write:
run the Notification Gate ("antes de avançar"), then either finalize (when
the next step is `completed`, marking `flow_completed`) or advance to the
next step, persist, and emit its interpolated question. -/
def flow_advance (env : Env) (sX : Session) (step_config : FlowStep) : FlowOut :=
  let n := notify_lawyers_if_qualified env sX sX.platform
  let s := n.session
  if step_config.next_step = "completed" then
    let s := { s with current_step := "completed", flow_completed := true }
    match handle_lead_finalization env s with
    | Except.error (s2, ev) =>
      { session := s2, response := get_personalized_greeting env.hour,
        events := n.events ++ [Event.save s] ++ ev }
    | Except.ok (s2, resp, ev) =>
      { session := s2, response := resp, events := n.events ++ [Event.save s] ++ ev }
  else
    let s := { s with current_step := step_config.next_step }
    let next_question :=
      match get_flow_steps env.hour step_config.next_step with
      | some next_config => next_config.question
      | none => ""
    { session := s, response := interpolate_message next_question s.lead_data,
      events := n.events ++ [Event.save s] }

/-- A scripted step (`step1_name` .. `step5_confirmation`): validate (the
failure path computes the unused `user_name`, whose `IndexError` lands in
the flow-level `except`), write the trimmed message into the step's field,
run contact extraction on `step2_contact`, then `flow_advance`. -/
def flow_scripted_step (env : Env) (s0 : Session) (message : String)
    (step_config : FlowStep) : FlowOut :=
  let v := validate_answer message s0.current_step
  if !v.1 then
    match firstTokenIfTruthy s0.lead_data.identification with
    | none => { session := s0, response := get_personalized_greeting env.hour, events := [] }
    | some _user_name => { session := s0, response := v.2, events := [] }
  else
    let lead :=
      match step_config.field with
      | some field_name => setLeadField s0.lead_data field_name (pyStrip message)
      | none => s0.lead_data
    let lead :=
      if s0.current_step = "step2_contact" then
        let pe := extract_contact_info message
        let lead := if pe.1 != "" then { lead with phone := pe.1 } else lead
        if pe.2 != "" then { lead with email := pe.2 } else lead
      else lead
    flow_advance env { s0 with lead_data := lead } step_config

/-- The invalid-state reset ("Estado inválido - reiniciar"): back to
`greeting`, `first_interaction` true, persist, re-emit the greeting. -/
def flow_invalid_reset (env : Env) (s0 : Session) : FlowOut :=
  let s := { s0 with current_step := "greeting", first_interaction := true }
  { session := s, response := get_personalized_greeting env.hour, events := [Event.save s] }

/-- Source `_process_conversation_flow`: dispatch over the branches in
source order — first interaction, `greeting` re-entry, `completed`,
`phone_collection`, the scripted steps, and the invalid-state reset (each
branch body is the correspondingly named function above). The `IndexError`
paths (truthy whitespace-only identification) land in the function's own
`except`, which returns the personalized greeting with the session as
mutated so far. -/
def process_conversation_flow (env : Env) (s0 : Session) (message : String) : FlowOut :=
  if s0.first_interaction then flow_first_interaction s0
  else if s0.current_step = "greeting" then flow_greeting_reentry s0
  else if s0.current_step = "completed" then flow_completed_branch env s0
  else if s0.current_step = "phone_collection" then flow_phone_collection env s0 message
  else
    match get_flow_steps env.hour s0.current_step with
    | some step_config => flow_scripted_step env s0 message step_config
    | none => flow_invalid_reset env s0


/-! ## Orchestrator entry point -/

/-- The dictionary `process_message` returns (timestamps omitted;
`qualification_score` kept in tenths; `orchestration_error` marks the
top-level exception reply, whose dictionary carries only the first four
keys in the source). -/
structure ProcessResult where
  response_type : String := ""
  platform : String := ""
  session_id : String := ""
  response : String := ""
  ai_mode : Bool := false
  current_step : String := ""
  flow_completed : Bool := false
  lawyers_notified : Bool := false
  phone_submitted : Bool := false
  lead_data : LeadData := {}
  message_count : Nat := 0
  qualification_score_tenths : Nat := 0
  orchestration_error : Bool := false
deriving DecidableEq

/-- Source `_get_or_create_session`: lazily create (and persist) a fresh
session for an unknown id, then attach a truthy `phone_number` argument. -/
def get_or_create_session (stored : Option Session) (session_id platform : String)
    (phone_number : Option String) : Session × List Event :=
  let created :=
    match stored with
    | some s => (s, ([] : List Event))
    | none =>
      let s : Session := { session_id := session_id, platform := platform }
      (s, [Event.save s])
  match phone_number with
  | some p => if p != "" then ({ created.1 with phone_number := p }, created.2) else created
  | none => created

/-- Everything one `process_message` call produces: the returned
dictionary, the session-store state after the call, and the side-effect
log. -/
structure TurnOut where
  result : ProcessResult
  stored : Option Session
  events : List Event
deriving DecidableEq

/-- Source `process_message`: load-or-create the session, run the flow,
bump `message_count`, persist, build the result, and force the response to
a non-empty string. `env.raiseUnexpected` models an unexpected exception
inside the `try`, answered by the top-level handler with the initial
greeting (the store is left as it was). -/
def process_message (env : Env) (stored : Option Session) (message session_id : String)
    (phone_number : Option String) (platform : String) : TurnOut :=
  if env.raiseUnexpected then
    let g := get_personalized_greeting env.hour
    { result := { response_type := "orchestration_error", platform := platform,
                  session_id := session_id,
                  response := if g != "" then g else "Olá! Como posso ajudá-lo?",
                  orchestration_error := true },
      stored := stored, events := [] }
  else
    let gc := get_or_create_session stored session_id platform phone_number
    let fo := process_conversation_flow env gc.1 message
    let s2 := { fo.session with message_count := fo.session.message_count + 1 }
    let result : ProcessResult := {
      response_type := platform ++ "_flow",
      platform := platform,
      session_id := session_id,
      response := fo.response,
      ai_mode := false,
      current_step := s2.current_step,
      flow_completed := s2.flow_completed,
      lawyers_notified := s2.lawyers_notified,
      phone_submitted := s2.phone_submitted,
      lead_data := s2.lead_data,
      message_count := s2.message_count,
      qualification_score_tenths := calculate_qualification_score_tenths s2.lead_data platform }
    let result :=
      if result.response = "" then { result with response := "Como posso ajudá-lo hoje?" }
      else result
    { result := result, stored := some s2, events := gc.2 ++ fo.events ++ [Event.save s2] }

/-! ## Multi-message runs and side-effect observations -/

/-- Whether an event is a sink invocation. -/
def isSink : Event → Bool
  | Event.sink => true
  | Event.save _ => false

/-- Number of notification-sink invocations in an event log. -/
def countSink (events : List Event) : Nat := events.countP isSink

/-- The `lawyers_notified` latch of a session-store state. -/
def latchOf : Option Session → Bool
  | none => false
  | some s => s.lawyers_notified

/-- Sequential delivery of a list of messages to one session: final store
state and total number of sink invocations. -/
def process_sequence (env : Env) (session_id platform : String) :
    Option Session → List String → Option Session × Nat
  | stored, [] => (stored, 0)
  | stored, m :: rest =>
    let t := process_message env stored m session_id none platform
    let r := process_sequence env session_id platform t.stored rest
    (r.1, countSink t.events + r.2)

/-- Number of false-to-true transitions of the latch along a run. -/
def latch_flips (env : Env) (session_id platform : String) :
    Option Session → List String → Nat
  | _, [] => 0
  | stored, m :: rest =>
    let t := process_message env stored m session_id none platform
    (if !latchOf stored && latchOf t.stored then 1 else 0) +
      latch_flips env session_id platform t.stored rest

/-- Every sink invocation in the log is immediately followed by a
`save_user_session` persisting a session whose latch is already true. -/
def sinkPersisted : List Event → Bool
  | [] => true
  | [Event.sink] => false
  | Event.sink :: Event.save s :: rest => s.lawyers_notified && sinkPersisted rest
  | Event.sink :: Event.sink :: _ => false
  | Event.save _ :: rest => sinkPersisted rest

/-- Reading `lead_data.get(field, "")` for the four scored fields. -/
def getLeadField (lead : LeadData) (field : String) : String :=
  if field = "identification" then lead.identification
  else if field = "contact_info" then lead.contact_info
  else if field = "area_qualification" then lead.area_qualification
  else if field = "case_details" then lead.case_details
  else ""

/-- Identification contribution of the scorer, in tenths. -/
def idPart (s : String) : Nat :=
  (if 3 ≤ (pyStrip s).length then 1 else 0) +
  (if 2 ≤ (pySplit (pyStrip s)).length then 1 else 0)

/-- Contact-info contribution of the scorer, in tenths. -/
def contactPart (s : String) : Nat :=
  if pyStrip s ≠ "" then
    1 + (if hasPhoneDigits (pyStrip s) then 1 else 0) +
      (if hasLooseEmail (pyStrip s) then 1 else 0)
  else 0

/-- Practice-area contribution of the scorer, in tenths. -/
def areaPart (s : String) : Nat :=
  if pyStrip s ≠ "" then
    1 + (if ["penal", "saude", "saúde", "criminal", "plano"].any
        (fun keyword => containsSub (pyLower (pyStrip s)) keyword) then 1 else 0)
  else 0

/-- Case-details contribution of the scorer, in tenths. -/
def detailPart (s : String) : Nat :=
  if pyStrip s ≠ "" then
    1 + (if 20 ≤ (pyStrip s).length then 1 else 0) +
      (if 50 ≤ (pyStrip s).length then 1 else 0)
  else 0

/-! # Theorems -/

/-! ### Phone normalization (claim C5) -/

theorem format_brazilian_phone_eq (s : String) :
    format_brazilian_phone s =
      if s = "" then ""
      else String.mk ('5' :: '5' :: phoneTail (strip55L (s.data.filter isDigitChar))) := by
  simp only [format_brazilian_phone, phoneTail, strip55L]
  split_ifs <;> rfl

theorem phoneTail_all_digits {pc : List Char} (h : ∀ c ∈ pc, isDigitChar c = true) :
    ∀ c ∈ phoneTail pc, isDigitChar c = true := by
  simp only [phoneTail]
  split_ifs <;> intro c hc
  · exact h c hc
  · exact h c hc
  · rcases List.mem_append.1 hc with h1 | h1
    · exact h c (List.take_subset _ _ h1)
    · rcases List.mem_cons.1 h1 with rfl | h2
      · decide
      · exact h c (List.drop_subset _ _ h2)
  · rcases List.mem_append.1 hc with h1 | h1
    · exact h c (List.take_subset _ _ h1)
    · exact h c (List.drop_subset _ _ h1)
  · rcases List.mem_append.1 hc with h1 | h1
    · exact h c (List.take_subset _ _ h1)
    · exact h c (List.drop_subset _ _ h1)
  · exact h c hc

theorem phoneTail_idem (pc : List Char) : phoneTail (phoneTail pc) = phoneTail pc := by
  by_cases h10 : pc.length = 10
  · by_cases hm : (decide ((pc.drop 2).length = 8) &&
        decide ((pc.drop 2).getD 0 ' ' ∈ ['6', '7', '8', '9'])) = true
    · have e1 : phoneTail pc = pc.take 2 ++ '9' :: pc.drop 2 := by
        simp only [phoneTail]
        rw [if_neg (by omega), if_neg (by omega), if_pos h10, if_pos hm]
      have hlen : (pc.take 2 ++ '9' :: pc.drop 2).length = 11 := by
        simp only [List.length_append, List.length_cons, List.length_take, List.length_drop, h10]
        omega
      have e2 : phoneTail (pc.take 2 ++ '9' :: pc.drop 2) = pc.take 2 ++ '9' :: pc.drop 2 := by
        simp only [phoneTail]
        rw [if_neg (by omega), if_neg (by omega), if_neg (by omega), if_pos hlen]
        exact List.take_append_drop 2 _
      rw [e1, e2]
    · have e1 : phoneTail pc = pc := by
        simp only [phoneTail]
        rw [if_neg (by omega), if_neg (by omega), if_pos h10, if_neg hm, List.take_append_drop]
      rw [e1]
      exact e1
  · have e1 : phoneTail pc = pc := by
      simp only [phoneTail]
      split_ifs <;>
        first
          | rfl
          | (exact List.take_append_drop 2 pc)
          | (exact absurd (by assumption : pc.length = 10) h10)
    rw [e1]
    exact e1

theorem strip55L_all_digits {l : List Char} (h : ∀ c ∈ l, isDigitChar c = true) :
    ∀ c ∈ strip55L l, isDigitChar c = true := by
  unfold strip55L
  split
  · exact fun c hc => h c (List.drop_subset _ _ hc)
  · exact h

theorem strip55L_cons55 (t : List Char) : strip55L ('5' :: '5' :: t) = t := by
  simp [strip55L]

theorem format_brazilian_phone_idem_all (s : String) :
    format_brazilian_phone (format_brazilian_phone s) = format_brazilian_phone s := by
  by_cases hs : s = ""
  · subst hs
    rfl
  · have hfmt : format_brazilian_phone s =
        String.mk ('5' :: '5' :: phoneTail (strip55L (s.data.filter isDigitChar))) := by
      rw [format_brazilian_phone_eq, if_neg hs]
    have hdig : ∀ c ∈ phoneTail (strip55L (s.data.filter isDigitChar)), isDigitChar c = true := by
      apply phoneTail_all_digits
      apply strip55L_all_digits
      intro c hc
      exact (List.mem_filter.1 hc).2
    have hne : String.mk ('5' :: '5' :: phoneTail (strip55L (s.data.filter isDigitChar))) ≠ "" := by
      intro h
      have := congrArg String.data h
      simp at this
    rw [hfmt, format_brazilian_phone_eq, if_neg hne]
    have hfil : ('5' :: '5' :: phoneTail (strip55L (s.data.filter isDigitChar))).filter isDigitChar
        = '5' :: '5' :: phoneTail (strip55L (s.data.filter isDigitChar)) := by
      rw [List.filter_eq_self]
      intro a ha
      rcases List.mem_cons.1 ha with rfl | ha
      · decide
      · rcases List.mem_cons.1 ha with rfl | ha
        · decide
        · exact hdig a ha
    show String.mk ('5' :: '5' ::
        phoneTail (strip55L (('5' :: '5' :: phoneTail (strip55L (s.data.filter isDigitChar))).filter isDigitChar))) = _
    rw [hfil, strip55L_cons55, phoneTail_idem]

/-- C5: phone normalization `_format_brazilian_phone` is idempotent on
digit strings of length 8 to 13 (here proved from the fact that it is
idempotent on every string). -/
theorem phone_normalization_idempotent (x : String)
    (hdig : x.data.all isDigitChar = true) (hlo : 8 ≤ x.length) (hhi : x.length ≤ 13) :
    format_brazilian_phone (format_brazilian_phone x) = format_brazilian_phone x :=
  format_brazilian_phone_idem_all x

/-- Witness for C5 at the digit string `"1687654321"` (length 10, mobile
padding applies: both passes give `"5516987654321"`). -/
theorem phone_normalization_idempotent_witness :
    ("1687654321" : String).data.all isDigitChar = true ∧
    8 ≤ ("1687654321" : String).length ∧ ("1687654321" : String).length ≤ 13 ∧
    format_brazilian_phone (format_brazilian_phone "1687654321") =
      format_brazilian_phone "1687654321" :=
  ⟨by decide, by decide, by decide,
    phone_normalization_idempotent "1687654321" (by decide) (by decide) (by decide)⟩

/-! ### Qualification scorer (claims C2, C3) -/

theorem score_id_block_eq (lead : LeadData) (n : Nat) :
    score_id_block lead n = n + idPart lead.identification := by
  simp only [score_id_block, idPart]
  split_ifs <;> omega

theorem score_contact_block_eq (lead : LeadData) (n : Nat) :
    score_contact_block lead n = n + contactPart lead.contact_info := by
  simp only [score_contact_block, contactPart]
  split_ifs <;> omega

theorem score_area_block_eq (lead : LeadData) (n : Nat) :
    score_area_block lead n = n + areaPart lead.area_qualification := by
  simp only [score_area_block, areaPart]
  split_ifs <;> omega

theorem score_detail_block_eq (lead : LeadData) (n : Nat) :
    score_detail_block lead n = n + detailPart lead.case_details := by
  simp only [score_detail_block, detailPart]
  split_ifs <;> omega

theorem score_eq_parts (lead : LeadData) (platform : String) :
    calculate_qualification_score_tenths lead platform =
      min (idPart lead.identification + contactPart lead.contact_info +
        areaPart lead.area_qualification + detailPart lead.case_details) 10 := by
  simp only [calculate_qualification_score_tenths, score_id_block_eq,
    score_contact_block_eq, score_area_block_eq, score_detail_block_eq]
  omega

theorem idPart_le (s : String) : idPart s ≤ 2 := by
  unfold idPart; split_ifs <;> omega

theorem contactPart_le (s : String) : contactPart s ≤ 3 := by
  unfold contactPart; split_ifs <;> omega

theorem areaPart_le (s : String) : areaPart s ≤ 2 := by
  unfold areaPart; split_ifs <;> omega

theorem detailPart_le (s : String) : detailPart s ≤ 3 := by
  unfold detailPart; split_ifs <;> omega

theorem contactPart_flat (s : String) :
    contactPart s =
      (if pyStrip s ≠ "" then 1 else 0) + (if hasPhoneDigits (pyStrip s) = true then 1 else 0) +
        (if hasLooseEmail (pyStrip s) = true then 1 else 0) := by
  unfold contactPart
  by_cases h : pyStrip s = ""
  · rw [h]
    decide
  · simp only [if_pos h]
    try (split_ifs <;> omega)

theorem areaPart_flat (s : String) :
    areaPart s =
      (if pyStrip s ≠ "" then 1 else 0) +
        (if (["penal", "saude", "saúde", "criminal", "plano"].any
          (fun keyword => containsSub (pyLower (pyStrip s)) keyword)) = true then 1 else 0) := by
  unfold areaPart
  by_cases h : pyStrip s = ""
  · rw [h]
    decide
  · simp only [if_pos h]
    try (split_ifs <;> omega)

theorem detailPart_flat (s : String) :
    detailPart s =
      (if pyStrip s ≠ "" then 1 else 0) + (if 20 ≤ (pyStrip s).length then 1 else 0) +
        (if 50 ≤ (pyStrip s).length then 1 else 0) := by
  unfold detailPart
  by_cases h : pyStrip s = ""
  · rw [h]
    decide
  · simp only [if_pos h]
    try (split_ifs <;> omega)

/-- C2: for every `lead_data` and platform the qualification score is the
additive sum of the listed per-field increments — identification length
and token count, contact presence/phone shape/email shape, area
presence/keyword, details presence and the 20- and 50-character richness
bands — capped at 1.0, and the result always lies in [0.0, 1.0]
(increments in tenths: `0.1` is `1`, the cap is `10`). Determinism and
freedom from side effects hold by construction: the embedding is a pure
function, and `platform` is ignored exactly as in the source. -/
theorem qualification_score_contract (lead : LeadData) (platform : String) :
    calculate_qualification_score_tenths lead platform =
      min ((if 3 ≤ (pyStrip lead.identification).length then 1 else 0) +
        (if 2 ≤ (pySplit (pyStrip lead.identification)).length then 1 else 0) +
        ((if pyStrip lead.contact_info ≠ "" then 1 else 0) +
          (if hasPhoneDigits (pyStrip lead.contact_info) = true then 1 else 0) +
          (if hasLooseEmail (pyStrip lead.contact_info) = true then 1 else 0)) +
        ((if pyStrip lead.area_qualification ≠ "" then 1 else 0) +
          (if (["penal", "saude", "saúde", "criminal", "plano"].any
            (fun keyword => containsSub (pyLower (pyStrip lead.area_qualification)) keyword)) = true
            then 1 else 0)) +
        ((if pyStrip lead.case_details ≠ "" then 1 else 0) +
          (if 20 ≤ (pyStrip lead.case_details).length then 1 else 0) +
          (if 50 ≤ (pyStrip lead.case_details).length then 1 else 0))) 10 ∧
    0 ≤ calculate_qualification_score lead platform ∧
    calculate_qualification_score lead platform ≤ 1 := by
  have h := score_eq_parts lead platform
  have hle : calculate_qualification_score_tenths lead platform ≤ 10 := by
    rw [h]
    exact Nat.min_le_right _ _
  refine ⟨?_, ?_, ?_⟩
  · rw [h, contactPart_flat, areaPart_flat, detailPart_flat]
    simp only [idPart]
    try omega
  · unfold calculate_qualification_score
    positivity
  · unfold calculate_qualification_score
    rw [div_le_one (by norm_num)]
    exact_mod_cast hle

/-- C3: for any fixed platform, filling any absent/empty scored field with
an arbitrary value never decreases the qualification score. -/
theorem qualification_score_monotone (lead : LeadData) (platform field value : String)
    (hf : field ∈ ["identification", "contact_info", "area_qualification", "case_details"])
    (hempty : getLeadField lead field = "") :
    calculate_qualification_score_tenths lead platform ≤
      calculate_qualification_score_tenths (setLeadField lead field value) platform := by
  fin_cases hf
  · have he : lead.identification = "" := by simpa [getLeadField] using hempty
    have h0 : idPart lead.identification = 0 := by rw [he]; decide
    have e1 : (setLeadField lead "identification" value).contact_info = lead.contact_info := by
      simp [setLeadField]
    have e2 : (setLeadField lead "identification" value).area_qualification = lead.area_qualification := by
      simp [setLeadField]
    have e3 : (setLeadField lead "identification" value).case_details = lead.case_details := by
      simp [setLeadField]
    rw [score_eq_parts, score_eq_parts, e1, e2, e3, h0]
    exact min_le_min (by omega) (le_refl 10)
  · have he : lead.contact_info = "" := by simpa [getLeadField] using hempty
    have h0 : contactPart lead.contact_info = 0 := by rw [he]; decide
    have e1 : (setLeadField lead "contact_info" value).identification = lead.identification := by
      simp [setLeadField]
    have e2 : (setLeadField lead "contact_info" value).area_qualification = lead.area_qualification := by
      simp [setLeadField]
    have e3 : (setLeadField lead "contact_info" value).case_details = lead.case_details := by
      simp [setLeadField]
    rw [score_eq_parts, score_eq_parts, e1, e2, e3, h0]
    exact min_le_min (by omega) (le_refl 10)
  · have he : lead.area_qualification = "" := by simpa [getLeadField] using hempty
    have h0 : areaPart lead.area_qualification = 0 := by rw [he]; decide
    have e1 : (setLeadField lead "area_qualification" value).identification = lead.identification := by
      simp [setLeadField]
    have e2 : (setLeadField lead "area_qualification" value).contact_info = lead.contact_info := by
      simp [setLeadField]
    have e3 : (setLeadField lead "area_qualification" value).case_details = lead.case_details := by
      simp [setLeadField]
    rw [score_eq_parts, score_eq_parts, e1, e2, e3, h0]
    exact min_le_min (by omega) (le_refl 10)
  · have he : lead.case_details = "" := by simpa [getLeadField] using hempty
    have h0 : detailPart lead.case_details = 0 := by rw [he]; decide
    have e1 : (setLeadField lead "case_details" value).identification = lead.identification := by
      simp [setLeadField]
    have e2 : (setLeadField lead "case_details" value).contact_info = lead.contact_info := by
      simp [setLeadField]
    have e3 : (setLeadField lead "case_details" value).area_qualification = lead.area_qualification := by
      simp [setLeadField]
    rw [score_eq_parts, score_eq_parts, e1, e2, e3, h0]
    exact min_le_min (by omega) (le_refl 10)

/-- Witness for C3: filling the empty `case_details` of an otherwise empty
lead cannot decrease the score. -/
theorem qualification_score_monotone_witness :
    ("case_details" ∈ ["identification", "contact_info", "area_qualification", "case_details"]) ∧
    getLeadField {} "case_details" = "" ∧
    calculate_qualification_score_tenths {} "web" ≤
      calculate_qualification_score_tenths
        (setLeadField {} "case_details" "Fui processado injustamente") "web" :=
  ⟨by decide, by decide,
    qualification_score_monotone {} "web" "case_details" "Fui processado injustamente"
      (by decide) (by decide)⟩

/-! ### Notification gate (claims C6, C1) -/

/-- **C6** counterexample — at 8 tenths the web gate does *not* fire: a
completed web session with full identification (2 tenths), contact with
phone and e-mail (3 tenths), the `penal` area (2 tenths) and case details
of 16 characters (1 tenth) meets every other criterion and reaches 0.8 in
exact tenths, yet the program\x27s float comparison sees
0.7999999999999999 < 0.8 and answers `should_notify = false`. This
refutes the claim that the gate fires at score ≥ 0.8. -/
theorem web_gate_eight_tenths_counterexample :
    (({ session_id := "w", platform := "web", current_step := "completed",
        flow_completed := true, message_count := 6,
        lead_data := { identification := "João Silva",
                       contact_info := "11999999999 joao@mail.com",
                       area_qualification := "penal",
                       case_details := "Detalhes do caso" } } : Session).lawyers_notified =
        false ∧
      ({ session_id := "w", platform := "web", current_step := "completed",
         flow_completed := true, message_count := 6,
         lead_data := { identification := "João Silva",
                        contact_info := "11999999999 joao@mail.com",
                        area_qualification := "penal",
                        case_details := "Detalhes do caso" } } : Session).flow_completed = true ∧
      3 ≤ (pyStrip "João Silva").length ∧
      15 ≤ (pyStrip "Detalhes do caso").length ∧
      calculate_qualification_score_tenths
        { identification := "João Silva", contact_info := "11999999999 joao@mail.com",
          area_qualification := "penal", case_details := "Detalhes do caso" } "web" = 8) ∧
    (should_notify_lawyers
      { session_id := "w", platform := "web", current_step := "completed",
        flow_completed := true, message_count := 6,
        lead_data := { identification := "João Silva",
                       contact_info := "11999999999 joao@mail.com",
                       area_qualification := "penal",
                       case_details := "Detalhes do caso" } } "web").should_notify = false := by
  decide

/-- **C6** (amended) — for platform `web`, the gate fires exactly when the
latch is unset, the flow is completed, all four primary fields are present,
the trimmed identification has length at least 3, the trimmed case details
have length at least 15, and the score has at least 9 tenths (its binary64
value is then ≥ 0.9 − 1 ulp): eight accumulated `0.1` floats equal
0.7999999999999999, which fails the source\x27s `score >= 0.8`, so 0.8 in
exact tenths is not enough and the ninth increment is required; otherwise
`should_notify` is false. -/
theorem web_notification_gate (session : Session) :
    (should_notify_lawyers session "web").should_notify = true ↔
      (session.lawyers_notified = false ∧ session.flow_completed = true ∧
       session.lead_data.identification ≠ "" ∧ session.lead_data.contact_info ≠ "" ∧
       session.lead_data.area_qualification ≠ "" ∧ session.lead_data.case_details ≠ "" ∧
       3 ≤ (pyStrip session.lead_data.identification).length ∧
       15 ≤ (pyStrip session.lead_data.case_details).length ∧
       9 ≤ calculate_qualification_score_tenths session.lead_data "web") := by
  cases hl : session.lawyers_notified
  · simp only [should_notify_lawyers]
    rw [if_neg (show ¬(session.lawyers_notified = true) by simp [hl])]
    first
      | rw [if_pos trivial]
      | rw [if_pos (rfl : ("web" : String) = "web")]
    split_ifs with hc
    · simp only [Bool.and_eq_true, bne_iff_ne, decide_eq_true_eq] at hc
      constructor
      · intro _
        tauto
      · intro _
        rfl
    · simp only [Bool.and_eq_true, bne_iff_ne, decide_eq_true_eq] at hc
      constructor
      · intro h
        simp at h
      · intro h
        exfalso
        apply hc
        tauto
  · simp [should_notify_lawyers, hl]

theorem whatsapp_gate_iff (session : Session) :
    (should_notify_lawyers session "whatsapp").should_notify = true ↔
      (session.lawyers_notified = false ∧ 4 ≤ session.message_count ∧
       session.lead_data.identification ≠ "" ∧ session.lead_data.contact_info ≠ "" ∧
       session.lead_data.area_qualification ≠ "" ∧
       3 ≤ (pyStrip session.lead_data.identification).length ∧
       3 ≤ (pyStrip session.lead_data.area_qualification).length ∧
       (session.current_step = "step4_details" ∨ session.current_step = "step5_confirmation" ∨
        session.current_step = "completed") ∧
       7 ≤ calculate_qualification_score_tenths session.lead_data "whatsapp") := by
  cases hl : session.lawyers_notified
  · simp only [should_notify_lawyers]
    rw [if_neg (show ¬(session.lawyers_notified = true) by simp [hl])]
    rw [if_neg (show ¬(("whatsapp" : String) = "web") by decide)]
    first
      | rw [if_pos trivial]
      | rw [if_pos (rfl : ("whatsapp" : String) = "whatsapp")]
    split_ifs with hc
    · simp [Bool.and_eq_true, bne_iff_ne, decide_eq_true_eq] at hc
      constructor
      · intro _
        tauto
      · intro _
        rfl
    · simp [Bool.and_eq_true, bne_iff_ne, decide_eq_true_eq] at hc
      constructor
      · intro h
        simp at h
      · intro h
        rcases h with ⟨-, h1, h2, h3, h4, h5, h6, h7, h8⟩
        have := hc h1 h2 h3 h4 h5 h6 h7
        omega
  · simp [should_notify_lawyers, hl]

/-! ### Notification latch helpers -/

theorem gate_already_notified (s : Session) (p : String) (h : s.lawyers_notified = true) :
    should_notify_lawyers s p = { should_notify := false, reason := "already_notified" } := by
  simp [should_notify_lawyers, h]

theorem notify_noop (env : Env) (s : Session) (p : String)
    (h : (should_notify_lawyers s p).should_notify = false) :
    notify_lawyers_if_qualified env s p =
      { session := s, notified := false, success := false, events := [] } := by
  simp [notify_lawyers_if_qualified, h]

theorem notify_latched (env : Env) (s : Session) (p : String) (h : s.lawyers_notified = true) :
    notify_lawyers_if_qualified env s p =
      { session := s, notified := false, success := false, events := [] } :=
  notify_noop env s p (by rw [gate_already_notified s p h])

theorem notify_cases (env : Env) (s : Session) (p : String) :
    notify_lawyers_if_qualified env s p =
        { session := s, notified := false, success := false, events := [] } ∨
      (env.sinkSuccess = true ∧
        notify_lawyers_if_qualified env s p =
          { session := { s with lawyers_notified := true }, notified := true, success := true,
            events := [Event.sink,
              Event.save { s with lawyers_notified := true }] }) ∨
      (env.sinkSuccess = false ∧
        notify_lawyers_if_qualified env s p =
          { session := s, notified := true, success := false, events := [Event.sink] }) := by
  simp only [notify_lawyers_if_qualified]
  split_ifs with h1 h2
  · left
    rfl
  · right
    left
    exact ⟨h2, rfl⟩
  · right
    right
    exact ⟨by simpa using h2, rfl⟩

theorem countSink_nil : countSink [] = 0 := rfl

theorem countSink_append (a b : List Event) : countSink (a ++ b) = countSink a + countSink b :=
  List.countP_append _ _ _

theorem countSink_save (s : Session) (rest : List Event) :
    countSink (Event.save s :: rest) = countSink rest := by
  simp [countSink, List.countP_cons, isSink]

theorem sinkPersisted_append {a b : List Event} (ha : sinkPersisted a = true)
    (hb : sinkPersisted b = true) : sinkPersisted (a ++ b) = true := by
  induction a using sinkPersisted.induct with
  | case1 => simpa using hb
  | case2 => simp [sinkPersisted] at ha
  | case3 s rest ih =>
    simp only [sinkPersisted, Bool.and_eq_true] at ha
    simp only [List.cons_append, sinkPersisted, Bool.and_eq_true]
    exact ⟨ha.1, ih ha.2⟩
  | case4 rest => simp [sinkPersisted] at ha
  | case5 s rest ih =>
    simp only [sinkPersisted] at ha
    simp only [List.cons_append, sinkPersisted]
    exact ih ha

theorem countSink_sink_save (x : Session) :
    countSink [Event.sink, Event.save x] = 1 := rfl

theorem notify_latch_mono (env : Env) (s : Session) (p : String) (h : s.lawyers_notified = true) :
    (notify_lawyers_if_qualified env s p).session.lawyers_notified = true ∧
      countSink (notify_lawyers_if_qualified env s p).events = 0 := by
  rw [notify_latched env s p h]
  exact ⟨h, rfl⟩

theorem notify_flip (env : Env) (s : Session) (p : String)
    (h : (notify_lawyers_if_qualified env s p).session.lawyers_notified = true) :
    s.lawyers_notified = true ∨
      (env.sinkSuccess = true ∧ 1 ≤ countSink (notify_lawyers_if_qualified env s p).events) := by
  rcases notify_cases env s p with h1 | ⟨h2, h1⟩ | ⟨h2, h1⟩
  · rw [h1] at h
    exact Or.inl h
  · right
    rw [h1]
    exact ⟨h2, by rfl⟩
  · rw [h1] at h
    exact Or.inl h

theorem notify_persisted (env : Env) (s : Session) (p : String) (h : env.sinkSuccess = true) :
    sinkPersisted (notify_lawyers_if_qualified env s p).events = true := by
  rcases notify_cases env s p with h1 | ⟨h2, h1⟩ | ⟨h2, h1⟩
  · rw [h1]
    rfl
  · rw [h1]
    simp [sinkPersisted]
  · rw [h2] at h
    cases h

theorem fin_error_eq (env : Env) (s s2 : Session) (ev : List Event)
    (h : handle_lead_finalization env s = Except.error (s2, ev)) : s2 = s ∧ ev = [] := by
  unfold handle_lead_finalization at h
  cases hf : firstNameOrCliente s.lead_data.identification with
  | none =>
    rw [hf] at h
    simp at h
    exact ⟨h.1.symm, h.2⟩
  | some fn =>
    rw [hf] at h
    dsimp only at h
    split_ifs at h <;> simp at h

theorem fin_cases (env : Env) (s : Session) (out : Except (Session × List Event) (Session × String × List Event))
    (hout : handle_lead_finalization env s = out) :
    out = Except.error (s, []) ∨ (∃ r, out = Except.ok (s, r, [])) ∨
    (∃ sU : Session, sU.lawyers_notified = s.lawyers_notified ∧
      ∃ r, out = Except.ok ((notify_lawyers_if_qualified env sU sU.platform).session, r,
        Event.save sU :: (notify_lawyers_if_qualified env sU sU.platform).events)) := by
  unfold handle_lead_finalization at hout
  cases hf : firstNameOrCliente s.lead_data.identification with
  | none =>
    try simp only [hf] at hout
    try dsimp only at hout
    left
    exact hout.symm
  | some fn =>
    try simp only [hf] at hout
    try dsimp only at hout
    split_ifs at hout
    all_goals
      first
        | (left; exact hout.symm)
        | (right; left; exact ⟨_, hout.symm⟩)
        | (right; right; refine ⟨_, ?_, _, hout.symm⟩; rfl)

theorem fin_ok_props (env : Env) (s s2 : Session) (r : String) (ev : List Event)
    (h : handle_lead_finalization env s = Except.ok (s2, r, ev)) :
    (s.lawyers_notified = true → s2.lawyers_notified = true ∧ countSink ev = 0) ∧
    (s2.lawyers_notified = true →
      s.lawyers_notified = true ∨ (env.sinkSuccess = true ∧ 1 ≤ countSink ev)) ∧
    (env.sinkSuccess = true → sinkPersisted ev = true) := by
  rcases fin_cases env s _ h with he | ⟨r0, hok⟩ | ⟨sU, hU, r0, hok⟩
  · cases he
  · simp only [Except.ok.injEq, Prod.mk.injEq] at hok
    obtain ⟨h1, h2, h3⟩ := hok
    subst h1
    subst h3
    exact ⟨fun hl => ⟨hl, rfl⟩, fun hl => Or.inl hl, fun _ => rfl⟩
  · simp only [Except.ok.injEq, Prod.mk.injEq] at hok
    obtain ⟨h1, h2, h3⟩ := hok
    subst h1
    subst h3
    refine ⟨?_, ?_, ?_⟩
    · intro hl
      have hUl : sU.lawyers_notified = true := hU.trans hl
      have hm := notify_latch_mono env sU sU.platform hUl
      exact ⟨hm.1, by rw [countSink_save]; exact hm.2⟩
    · intro h2l
      rcases notify_flip env sU sU.platform h2l with hA | ⟨hB, hC⟩
      · exact Or.inl (hU.symm.trans hA)
      · right
        rw [countSink_save]
        exact ⟨hB, hC⟩
    · intro hs
      have hp := notify_persisted env sU sU.platform hs
      simp only [sinkPersisted]
      exact hp

theorem advance_props (env : Env) (sX : Session) (cfg : FlowStep) (fo : FlowOut)
    (hfo : flow_advance env sX cfg = fo) :
    (sX.lawyers_notified = true → fo.session.lawyers_notified = true ∧ countSink fo.events = 0) ∧
    (fo.session.lawyers_notified = true →
      sX.lawyers_notified = true ∨ (env.sinkSuccess = true ∧ 1 ≤ countSink fo.events)) ∧
    (env.sinkSuccess = true → sinkPersisted fo.events = true) := by
  unfold flow_advance at hfo
  dsimp only at hfo
  split_ifs at hfo with hns
  · split at hfo
    · rename_i s2 ev hfin
      subst hfo
      obtain ⟨hs2, hev⟩ := fin_error_eq _ _ _ _ hfin
      subst hs2
      subst hev
      refine ⟨?_, ?_, ?_⟩
      · intro hl
        have hm := notify_latch_mono env sX sX.platform hl
        refine ⟨hm.1, ?_⟩
        rw [countSink_append, countSink_append, hm.2]
        rfl
      · intro hl
        rcases notify_flip env sX sX.platform hl with hA | ⟨hB, hC⟩
        · exact Or.inl hA
        · right
          refine ⟨hB, ?_⟩
          rw [countSink_append, countSink_append]
          omega
      · intro hs
        exact sinkPersisted_append
          (sinkPersisted_append (notify_persisted env sX sX.platform hs) rfl) rfl
    · rename_i s2 resp ev hfin
      subst hfo
      obtain ⟨fa, fb, fc⟩ := fin_ok_props _ _ _ _ _ hfin
      refine ⟨?_, ?_, ?_⟩
      · intro hl
        have hm := notify_latch_mono env sX sX.platform hl
        have hf := fa hm.1
        refine ⟨hf.1, ?_⟩
        rw [countSink_append, countSink_append, hm.2, hf.2]
        rfl
      · intro hl
        rcases fb hl with hA | ⟨hB, hC⟩
        · rcases notify_flip env sX sX.platform hA with hD | ⟨hB, hC⟩
          · exact Or.inl hD
          · right
            refine ⟨hB, ?_⟩
            rw [countSink_append, countSink_append]
            omega
        · right
          refine ⟨hB, ?_⟩
          rw [countSink_append, countSink_append]
          omega
      · intro hs
        exact sinkPersisted_append
          (sinkPersisted_append (notify_persisted env sX sX.platform hs) rfl) (fc hs)
  · subst hfo
    refine ⟨?_, ?_, ?_⟩
    · intro hl
      have hm := notify_latch_mono env sX sX.platform hl
      refine ⟨hm.1, ?_⟩
      rw [countSink_append, hm.2]
      rfl
    · intro hl
      rcases notify_flip env sX sX.platform hl with hA | ⟨hB, hC⟩
      · exact Or.inl hA
      · right
        refine ⟨hB, ?_⟩
        rw [countSink_append]
        omega
    · intro hs
      exact sinkPersisted_append (notify_persisted env sX sX.platform hs) rfl

theorem pc_props (env : Env) (s0 : Session) (message : String) (fo : FlowOut)
    (hfo : flow_phone_collection env s0 message = fo) :
    (s0.lawyers_notified = true → fo.session.lawyers_notified = true ∧ countSink fo.events = 0) ∧
    (fo.session.lawyers_notified = true →
      s0.lawyers_notified = true ∨ (env.sinkSuccess = true ∧ 1 ≤ countSink fo.events)) ∧
    (env.sinkSuccess = true → sinkPersisted fo.events = true) := by
  unfold flow_phone_collection at hfo
  dsimp only at hfo
  split_ifs at hfo with hv
  · subst hfo
    exact ⟨fun hl => ⟨hl, rfl⟩, fun hl => Or.inl hl, fun _ => rfl⟩
  · split at hfo
    · rename_i s2 ev hfin
      subst hfo
      obtain ⟨hs2, hev⟩ := fin_error_eq _ _ _ _ hfin
      subst hs2
      subst hev
      exact ⟨fun hl => ⟨hl, rfl⟩, fun hl => Or.inl hl, fun _ => rfl⟩
    · rename_i s2 resp ev hfin
      subst hfo
      obtain ⟨fa, fb, fc⟩ := fin_ok_props _ _ _ _ _ hfin
      refine ⟨?_, ?_, ?_⟩
      · intro hl
        have hf := fa hl
        refine ⟨hf.1, ?_⟩
        rw [countSink_save]
        exact hf.2
      · intro hl
        rcases fb hl with hA | ⟨hB, hC⟩
        · exact Or.inl hA
        · right
          refine ⟨hB, ?_⟩
          rw [countSink_save]
          exact hC
      · intro hs
        simp only [sinkPersisted]
        exact fc hs

theorem scripted_props (env : Env) (s0 : Session) (message : String) (cfg : FlowStep)
    (fo : FlowOut) (hfo : flow_scripted_step env s0 message cfg = fo) :
    (s0.lawyers_notified = true → fo.session.lawyers_notified = true ∧ countSink fo.events = 0) ∧
    (fo.session.lawyers_notified = true →
      s0.lawyers_notified = true ∨ (env.sinkSuccess = true ∧ 1 ≤ countSink fo.events)) ∧
    (env.sinkSuccess = true → sinkPersisted fo.events = true) := by
  unfold flow_scripted_step at hfo
  dsimp only at hfo
  split_ifs at hfo with hv
  · split at hfo
    · subst hfo
      exact ⟨fun hl => ⟨hl, rfl⟩, fun hl => Or.inl hl, fun _ => rfl⟩
    · subst hfo
      exact ⟨fun hl => ⟨hl, rfl⟩, fun hl => Or.inl hl, fun _ => rfl⟩
  all_goals
    have h := advance_props env _ cfg fo hfo
    exact h

theorem completed_props (env : Env) (s0 : Session) (fo : FlowOut)
    (hfo : flow_completed_branch env s0 = fo) :
    (s0.lawyers_notified = true → fo.session.lawyers_notified = true ∧ countSink fo.events = 0) ∧
    (fo.session.lawyers_notified = true →
      s0.lawyers_notified = true ∨ (env.sinkSuccess = true ∧ 1 ≤ countSink fo.events)) ∧
    (env.sinkSuccess = true → sinkPersisted fo.events = true) := by
  unfold flow_completed_branch at hfo
  split at hfo
  · subst hfo
    exact ⟨fun hl => ⟨hl, rfl⟩, fun hl => Or.inl hl, fun _ => rfl⟩
  · dsimp only at hfo
    split_ifs at hfo with hph <;> subst hfo <;>
      exact ⟨fun hl => ⟨hl, rfl⟩, fun hl => Or.inl hl, fun _ => rfl⟩

theorem flow_out_props (env : Env) (s0 : Session) (m : String) (fo : FlowOut)
    (hfo : process_conversation_flow env s0 m = fo) :
    (s0.lawyers_notified = true → fo.session.lawyers_notified = true ∧ countSink fo.events = 0) ∧
    (fo.session.lawyers_notified = true →
      s0.lawyers_notified = true ∨ (env.sinkSuccess = true ∧ 1 ≤ countSink fo.events)) ∧
    (env.sinkSuccess = true → sinkPersisted fo.events = true) := by
  unfold process_conversation_flow at hfo
  split_ifs at hfo with h1 h2 h3 h4
  · unfold flow_first_interaction at hfo
    dsimp only at hfo
    subst hfo
    exact ⟨fun hl => ⟨hl, rfl⟩, fun hl => Or.inl hl, fun _ => rfl⟩
  · unfold flow_greeting_reentry at hfo
    dsimp only at hfo
    subst hfo
    exact ⟨fun hl => ⟨hl, rfl⟩, fun hl => Or.inl hl, fun _ => rfl⟩
  · exact completed_props env s0 fo hfo
  · exact pc_props env s0 m fo hfo
  · split at hfo
    · exact scripted_props env s0 m _ fo hfo
    · unfold flow_invalid_reset at hfo
      dsimp only at hfo
      subst hfo
      exact ⟨fun hl => ⟨hl, rfl⟩, fun hl => Or.inl hl, fun _ => rfl⟩

theorem gc_props (stored : Option Session) (sid p : String) (pn : Option String) :
    (get_or_create_session stored sid p pn).1.lawyers_notified = latchOf stored ∧
    countSink (get_or_create_session stored sid p pn).2 = 0 ∧
    sinkPersisted (get_or_create_session stored sid p pn).2 = true := by
  cases stored <;> cases pn <;> simp [get_or_create_session, latchOf]
  all_goals try split_ifs
  all_goals
    first
      | exact ⟨rfl, rfl⟩
      | exact ⟨rfl, rfl, rfl⟩
      | rfl
      | simp [countSink, isSink, sinkPersisted]

set_option maxHeartbeats 1000000 in
theorem pm_props (env : Env) (stored : Option Session) (m sid : String) (pn : Option String)
    (p : String) (t : TurnOut) (ht : process_message env stored m sid pn p = t) :
    (latchOf stored = true → latchOf t.stored = true ∧ countSink t.events = 0) ∧
    (latchOf t.stored = true →
      latchOf stored = true ∨ (env.sinkSuccess = true ∧ 1 ≤ countSink t.events)) ∧
    (env.sinkSuccess = true → sinkPersisted t.events = true) := by
  unfold process_message at ht
  split_ifs at ht with hre
  · subst ht
    exact ⟨fun hl => ⟨hl, rfl⟩, fun hl => Or.inl hl, fun _ => rfl⟩
  · dsimp only at ht
    obtain ⟨gc1, gc2, gc3⟩ := gc_props stored sid p pn
    obtain ⟨fa, fb, fc⟩ := flow_out_props env (get_or_create_session stored sid p pn).1 m _ rfl
    split_ifs at ht <;> subst ht <;> refine ⟨?_, ?_, ?_⟩
    all_goals
      first
        | (intro hl
           have hx := fa (by rw [gc1]; exact hl)
           refine ⟨hx.1, ?_⟩
           rw [countSink_append, countSink_append, gc2, hx.2]
           rfl)
        | (intro hl
           rcases fb hl with hA | ⟨hB, hC⟩
           · exact Or.inl (gc1 ▸ hA)
           · right
             refine ⟨hB, ?_⟩
             rw [countSink_append, countSink_append]
             omega)
        | (intro hs
           exact sinkPersisted_append (sinkPersisted_append gc3 (fc hs)) rfl)

theorem seq_latched (env : Env) (sid p : String) (msgs : List String) (stored : Option Session)
    (hl : latchOf stored = true) :
    latchOf (process_sequence env sid p stored msgs).1 = true ∧
      (process_sequence env sid p stored msgs).2 = 0 := by
  induction msgs generalizing stored with
  | nil => exact ⟨hl, rfl⟩
  | cons mh rest ih =>
    obtain ⟨pa, pb, pc⟩ := pm_props env stored mh sid none p _ rfl
    have h1 := pa hl
    have h2 := ih _ h1.1
    simp only [process_sequence]
    exact ⟨h2.1, by rw [h1.2, h2.2]⟩

theorem seq_flip (env : Env) (sid p : String) (msgs : List String) (stored : Option Session)
    (hl : latchOf (process_sequence env sid p stored msgs).1 = true) :
    latchOf stored = true ∨ env.sinkSuccess = true := by
  induction msgs generalizing stored with
  | nil => exact Or.inl hl
  | cons mh rest ih =>
    simp only [process_sequence] at hl
    rcases ih _ hl with hA | hB
    · obtain ⟨pa, pb, pc⟩ := pm_props env stored mh sid none p _ rfl
      rcases pb hA with hC | ⟨hD, _⟩
      · exact Or.inl hC
      · exact Or.inr hD
    · exact Or.inr hB

theorem flips_zero_of_latched (env : Env) (sid p : String) (msgs : List String)
    (stored : Option Session) (hl : latchOf stored = true) :
    latch_flips env sid p stored msgs = 0 := by
  induction msgs generalizing stored with
  | nil => rfl
  | cons mh rest ih =>
    obtain ⟨pa, pb, pc⟩ := pm_props env stored mh sid none p _ rfl
    have h1 := pa hl
    simp only [latch_flips]
    rw [hl, ih _ h1.1]
    simp

theorem latch_flips_le_one (env : Env) (sid p : String) (msgs : List String)
    (stored : Option Session) : latch_flips env sid p stored msgs ≤ 1 := by
  induction msgs generalizing stored with
  | nil => simp [latch_flips]
  | cons mh rest ih =>
    simp only [latch_flips]
    cases hl2 : latchOf (process_message env stored mh sid none p).stored
    · have := ih (process_message env stored mh sid none p).stored
      simp [hl2]
      omega
    · rw [flips_zero_of_latched env sid p rest _ hl2]
      split_ifs <;> omega

/-! ### The lawyers_notified latch (claim C7) -/

/-- C7: across any sequence of processed messages for one session,
`lawyers_notified` flips false-to-true at most once; once it is true the
gate short-circuits to `should_notify = false` with reason
`already_notified` and the sink is never invoked again for that session;
the flag becomes true only in a turn with a successful sink invocation;
and on sink success the latched session is persisted immediately, before
the flow continues (every sink event is directly followed by a
`save_user_session` of a session whose latch is already true). -/
theorem lawyers_notified_latch (env : Env) (sid platform : String) :
    (∀ (stored : Option Session) (msgs : List String),
      latch_flips env sid platform stored msgs ≤ 1) ∧
    (∀ (s : Session) (p : String), s.lawyers_notified = true →
      should_notify_lawyers s p = { should_notify := false, reason := "already_notified" }) ∧
    (∀ (stored : Option Session) (msgs : List String), latchOf stored = true →
      latchOf (process_sequence env sid platform stored msgs).1 = true ∧
      (process_sequence env sid platform stored msgs).2 = 0) ∧
    (∀ (stored : Option Session) (m : String) (pn : Option String),
      latchOf (process_message env stored m sid pn platform).stored = true →
      latchOf stored = true ∨
        (env.sinkSuccess = true ∧
          1 ≤ countSink (process_message env stored m sid pn platform).events)) ∧
    (∀ (stored : Option Session) (m : String) (pn : Option String), env.sinkSuccess = true →
      sinkPersisted (process_message env stored m sid pn platform).events = true) := by
  refine ⟨?_, ?_, ?_, ?_, ?_⟩
  · exact fun stored msgs => latch_flips_le_one env sid platform msgs stored
  · exact fun s p h => gate_already_notified s p h
  · exact fun stored msgs h => seq_latched env sid platform msgs stored h
  · intro stored m pn h
    exact (pm_props env stored m sid pn platform _ rfl).2.1 h
  · intro stored m pn hs
    exact (pm_props env stored m sid pn platform _ rfl).2.2 hs

/-- Witness for C7: a latched session short-circuits the gate, flip count
over a concrete run is at most one, and a run from a latched store makes
no sink calls. -/
theorem lawyers_notified_latch_witness :
    should_notify_lawyers
        { session_id := "w", platform := "whatsapp", lawyers_notified := true } "whatsapp" =
      { should_notify := false, reason := "already_notified" } ∧
    latch_flips {} "w" "whatsapp" none ["oi", "João Silva"] ≤ 1 ∧
    (process_sequence {} "w" "whatsapp"
      (some { session_id := "w", platform := "whatsapp", lawyers_notified := true })
      ["oi", "tudo bem"]).2 = 0 := by
  have h := lawyers_notified_latch {} "w" "whatsapp"
  exact ⟨h.2.1 _ "whatsapp" (by decide), h.1 _ _, (h.2.2.1 _ _ (by decide)).2⟩

/-! ### Orchestrator unfolding helpers -/

theorem pm_no_raise (env : Env) (he : env.raiseUnexpected = false) (stored : Option Session)
    (m sid : String) (pn : Option String) (p : String) :
    process_message env stored m sid pn p =
      (let gc := get_or_create_session stored sid p pn
       let fo := process_conversation_flow env gc.1 m
       let s2 := { fo.session with message_count := fo.session.message_count + 1 }
       let result : ProcessResult := {
         response_type := p ++ "_flow",
         platform := p,
         session_id := sid,
         response := fo.response,
         ai_mode := false,
         current_step := s2.current_step,
         flow_completed := s2.flow_completed,
         lawyers_notified := s2.lawyers_notified,
         phone_submitted := s2.phone_submitted,
         lead_data := s2.lead_data,
         message_count := s2.message_count,
         qualification_score_tenths := calculate_qualification_score_tenths s2.lead_data p }
       let result :=
         if result.response = "" then { result with response := "Como posso ajudá-lo hoje?" }
         else result
       { result := result, stored := some s2, events := gc.2 ++ fo.events ++ [Event.save s2] }) := by
  unfold process_message
  rw [if_neg (by simp [he])]

theorem gc_some (s : Session) (sid p : String) (pn : Option String) :
    (get_or_create_session (some s) sid p pn).2 = [] ∧
    ∃ q, (get_or_create_session (some s) sid p pn).1 = { s with phone_number := q } := by
  cases pn with
  | none => exact ⟨rfl, s.phone_number, rfl⟩
  | some q =>
    refine ⟨?_, ?_⟩
    · simp [get_or_create_session]
      split_ifs <;> rfl
    · by_cases hq : (q != "") = true
      · exact ⟨q, by simp [get_or_create_session, hq]⟩
      · exact ⟨s.phone_number, by simp [get_or_create_session, hq]⟩

theorem validate_error_nonempty (a st : String) (h : (validate_answer a st).1 = false) :
    (validate_answer a st).2 ≠ "" := by
  simp only [validate_answer] at h ⊢
  split_ifs at h ⊢ <;> first | (exact absurd h (by decide)) | decide

theorem firstToken_some (s : String) (hid : s = "" ∨ pySplit s ≠ []) :
    ∃ u, firstTokenIfTruthy s = some u := by
  by_cases hz : s = ""
  · exact ⟨"", by simp [firstTokenIfTruthy, hz]⟩
  · rcases hid with h | h
    · exact absurd h hz
    · cases hsp : pySplit s with
      | nil => exact absurd hsp h
      | cons a t => exact ⟨a, by simp [firstTokenIfTruthy, hz, hsp]⟩

theorem flow_fail_eq (env : Env) (s0 : Session) (message : String)
    (hfi : s0.first_interaction = false)
    (hstep : s0.current_step ∈ ["step1_name", "step2_contact", "step3_area", "step4_details",
      "step5_confirmation", "phone_collection"])
    (hid : s0.lead_data.identification = "" ∨ pySplit s0.lead_data.identification ≠ [])
    (hval : (validate_answer message s0.current_step).1 = false) :
    process_conversation_flow env s0 message =
      { session := s0, response := (validate_answer message s0.current_step).2, events := [] } := by
  obtain ⟨u, hu⟩ := firstToken_some _ hid
  have hvb : (!(validate_answer message s0.current_step).1) = true := by simp [hval]
  simp only [List.mem_cons, List.not_mem_nil, or_false] at hstep
  unfold process_conversation_flow
  rw [if_neg (by simp [hfi])]
  rcases hstep with h | h | h | h | h | h
  all_goals rw [h]
  · rw [if_neg (by decide), if_neg (by decide), if_neg (by decide)]
    rw [show get_flow_steps env.hour "step1_name" =
      some (⟨step1_name_question, some "identification", "step2_contact"⟩ : FlowStep) from rfl]
    unfold flow_scripted_step
    dsimp only
    rw [if_pos hvb, hu]
    dsimp only
    rw [h]
  · rw [if_neg (by decide), if_neg (by decide), if_neg (by decide)]
    rw [show get_flow_steps env.hour "step2_contact" =
      some (⟨step2_contact_question, some "contact_info", "step3_area"⟩ : FlowStep) from rfl]
    unfold flow_scripted_step
    dsimp only
    rw [if_pos hvb, hu]
    dsimp only
    rw [h]
  · rw [if_neg (by decide), if_neg (by decide), if_neg (by decide)]
    rw [show get_flow_steps env.hour "step3_area" =
      some (⟨step3_area_question, some "area_qualification", "step4_details"⟩ : FlowStep) from rfl]
    unfold flow_scripted_step
    dsimp only
    rw [if_pos hvb, hu]
    dsimp only
    rw [h]
  · rw [if_neg (by decide), if_neg (by decide), if_neg (by decide)]
    rw [show get_flow_steps env.hour "step4_details" =
      some (⟨step4_details_question, some "case_details", "step5_confirmation"⟩ : FlowStep) from rfl]
    unfold flow_scripted_step
    dsimp only
    rw [if_pos hvb, hu]
    dsimp only
    rw [h]
  · rw [if_neg (by decide), if_neg (by decide), if_neg (by decide)]
    rw [show get_flow_steps env.hour "step5_confirmation" =
      some (⟨step5_confirmation_question, some "confirmation", "completed"⟩ : FlowStep) from rfl]
    unfold flow_scripted_step
    dsimp only
    rw [if_pos hvb, hu]
    dsimp only
    rw [h]
  · rw [if_neg (by decide), if_neg (by decide), if_pos rfl]
    unfold flow_phone_collection
    dsimp only
    rw [if_pos hvb]
    rw [h]

/-- **C4** — When the current step is one of the six answer-collecting steps and
the inbound message fails that step\x27s validator, `process_message` returns the
validator\x27s error string as the response, leaves `current_step` and `lead_data`
unchanged, and still increments `message_count` by exactly one. (The hypotheses
require a reachable state: not the first interaction, and an `identification`
field that is either empty or splittable into at least one token, so the Python
`split()[0]` fallback cannot raise.) -/
theorem validator_failure_preserves_state (env : Env) (s : Session)
    (message sid platform : String) (pn : Option String)
    (he : env.raiseUnexpected = false)
    (hstep : s.current_step ∈ ["step1_name", "step2_contact", "step3_area", "step4_details",
      "step5_confirmation", "phone_collection"])
    (hfi : s.first_interaction = false)
    (hid : s.lead_data.identification = "" ∨ pySplit s.lead_data.identification ≠ [])
    (hval : (validate_answer message s.current_step).1 = false) :
    (process_message env (some s) message sid pn platform).result.response =
      (validate_answer message s.current_step).2 ∧
    ∃ s2, (process_message env (some s) message sid pn platform).stored = some s2 ∧
      s2.current_step = s.current_step ∧
      s2.lead_data = s.lead_data ∧
      s2.message_count = s.message_count + 1 := by
  obtain ⟨hev, q, hq⟩ := gc_some s sid platform pn
  have hflow := flow_fail_eq env { s with phone_number := q } message hfi hstep hid hval
  have hne := validate_error_nonempty message s.current_step hval
  rw [pm_no_raise env he (some s) message sid pn platform]
  dsimp only
  rw [hq, hflow]
  dsimp only
  rw [if_neg hne]
  exact ⟨rfl, _, rfl, rfl, rfl, rfl⟩

theorem validator_failure_preserves_state_witness :
    (process_message {} (some { session_id := "w", platform := "whatsapp",
                                current_step := "step1_name", message_count := 1,
                                first_interaction := false })
      "x" "w" none "whatsapp").result.response = (validate_answer "x" "step1_name").2 ∧
    ∃ s2, (process_message {} (some { session_id := "w", platform := "whatsapp",
                                      current_step := "step1_name", message_count := 1,
                                      first_interaction := false })
      "x" "w" none "whatsapp").stored = some s2 ∧
      s2.current_step = "step1_name" ∧
      s2.lead_data = ({} : LeadData) ∧
      s2.message_count = 2 :=
  validator_failure_preserves_state {}
    { session_id := "w", platform := "whatsapp", current_step := "step1_name",
      message_count := 1, first_interaction := false }
    "x" "w" "whatsapp" none rfl (by decide) rfl (Or.inl rfl) (by decide)

theorem gc_none (sid p : String) (pn : Option String) :
    ∃ q, get_or_create_session none sid p pn =
      ({ session_id := sid, platform := p, phone_number := q },
       [Event.save { session_id := sid, platform := p }]) := by
  cases pn with
  | none => exact ⟨"", rfl⟩
  | some r =>
    by_cases hr : (r != "") = true
    · exact ⟨r, by simp [get_or_create_session, hr]⟩
    · exact ⟨"", by simp [get_or_create_session, hr]⟩

theorem pm_none_msg_indep (env : Env) (m sid : String) (pn : Option String) (p : String) :
    process_message { env with raiseUnexpected := false } none m sid pn p =
      process_message { env with raiseUnexpected := false } none "" sid pn p := by
  obtain ⟨q, hq⟩ := gc_none sid p pn
  have hflow : ∀ msg, process_conversation_flow { env with raiseUnexpected := false }
      { session_id := sid, platform := p, phone_number := q } msg =
      flow_first_interaction { session_id := sid, platform := p, phone_number := q } := by
    intro msg
    unfold process_conversation_flow
    rw [if_pos rfl]
  rw [pm_no_raise _ rfl, pm_no_raise _ rfl]
  dsimp only
  rw [hq]
  dsimp only
  rw [hflow m, hflow ""]

/-- **C10** — A first inbound message for an unknown session id creates the
session, answers with the `step1_name` question, stores a session whose
`current_step` is `step1_name` with `first_interaction` cleared, an empty
`lead_data` and `message_count` 1, and ignores the message content entirely:
any two messages yield identical outcomes. -/
theorem first_message_bootstrap (env : Env) (m mAlt sid : String) (pn : Option String)
    (p : String) :
    (process_message { env with raiseUnexpected := false } none m sid pn p).result.response =
      step1_name_question ∧
    (process_message { env with raiseUnexpected := false } none m sid pn p).result.current_step =
      "step1_name" ∧
    (process_message { env with raiseUnexpected := false } none m sid pn p).result.message_count =
      1 ∧
    (process_message { env with raiseUnexpected := false } none m sid pn p).result.lead_data =
      ({} : LeadData) ∧
    (∃ s2, (process_message { env with raiseUnexpected := false } none m sid pn p).stored =
        some s2 ∧
      s2.current_step = "step1_name" ∧ s2.first_interaction = false ∧
      s2.message_count = 1 ∧ s2.lead_data = ({} : LeadData)) ∧
    process_message { env with raiseUnexpected := false } none m sid pn p =
      process_message { env with raiseUnexpected := false } none mAlt sid pn p := by
  obtain ⟨q, hq⟩ := gc_none sid p pn
  have hflow : process_conversation_flow { env with raiseUnexpected := false }
      { session_id := sid, platform := p, phone_number := q } m =
      flow_first_interaction { session_id := sid, platform := p, phone_number := q } := by
    unfold process_conversation_flow
    rw [if_pos rfl]
  have hind := (pm_none_msg_indep env m sid pn p).trans (pm_none_msg_indep env mAlt sid pn p).symm
  refine ⟨?_, ?_, ?_, ?_, ?_, hind⟩ <;>
    (rw [pm_no_raise _ rfl]
     dsimp only
     rw [hq]
     dsimp only
     rw [hflow]
     unfold flow_first_interaction
     dsimp only
     try rw [if_neg (by decide)]) <;>
    first
      | rfl
      | exact ⟨_, rfl, rfl, rfl, rfl, rfl⟩

theorem greeting_ne_empty (h : Nat) : get_personalized_greeting h ≠ "" := by
  simp only [get_personalized_greeting]
  split_ifs <;> decide

/-- **C8** counterexample — a session whose `current_step` is `greeting` with
`first_interaction` false is *not* reset to `greeting`: processing a message
advances it to `step1_name` and answers with the name question, not the
greeting. This refutes the claim that greeting re-entry resets the state. -/
theorem greeting_reentry_counterexample :
    (process_message {} (some { session_id := "w", platform := "web",
                                current_step := "greeting", message_count := 1,
                                first_interaction := false })
      "oi" "w" none "web").stored =
      some { session_id := "w", platform := "web", current_step := "step1_name",
             message_count := 2, first_interaction := false } ∧
    (process_message {} (some { session_id := "w", platform := "web",
                                current_step := "greeting", message_count := 1,
                                first_interaction := false })
      "oi" "w" none "web").result.response = step1_name_question ∧
    step1_name_question ≠ get_personalized_greeting 10 ∧
    "step1_name" ≠ "greeting" := by decide

/-- **C8** (amended) — greeting re-entry with `first_interaction` false is
*advanced*, not reset: `current_step` becomes `step1_name`, the name question
is re-asked and `first_interaction` stays false. Only an *unrecognized*
`current_step` (no `_get_flow_steps` entry, and not the `completed` or
`phone_collection` branches) triggers the self-healing reset to `greeting`
with `first_interaction` set to true and the initial greeting re-emitted. -/
theorem greeting_and_invalid_step_recovery (env : Env) (s : Session)
    (m sid : String) (pn : Option String) (p : String) :
    (s.first_interaction = false → s.current_step = "greeting" →
      ∃ s2, (process_message { env with raiseUnexpected := false }
          (some s) m sid pn p).stored = some s2 ∧
        s2.current_step = "step1_name" ∧ s2.first_interaction = false ∧
        (process_message { env with raiseUnexpected := false }
          (some s) m sid pn p).result.response = step1_name_question) ∧
    (s.first_interaction = false →
      get_flow_steps env.hour s.current_step = none →
      s.current_step ≠ "completed" → s.current_step ≠ "phone_collection" →
      ∃ s2, (process_message { env with raiseUnexpected := false }
          (some s) m sid pn p).stored = some s2 ∧
        s2.current_step = "greeting" ∧ s2.first_interaction = true ∧
        (process_message { env with raiseUnexpected := false }
          (some s) m sid pn p).result.response = get_personalized_greeting env.hour) := by
  obtain ⟨hev, q, hq⟩ := gc_some s sid p pn
  constructor
  · intro hfi hg
    have hflow : process_conversation_flow { env with raiseUnexpected := false }
        { s with phone_number := q } m = flow_greeting_reentry { s with phone_number := q } := by
      unfold process_conversation_flow
      rw [if_neg (by simp [hfi]), if_pos hg]
    rw [pm_no_raise _ rfl]
    dsimp only
    rw [hq]
    try dsimp only
    rw [hflow]
    unfold flow_greeting_reentry
    dsimp only
    rw [if_neg (by decide)]
    exact ⟨_, rfl, rfl, hfi, rfl⟩
  · intro hfi hnone hc hp
    have hng : ¬ s.current_step = "greeting" := by
      intro h
      rw [h] at hnone
      simp [get_flow_steps] at hnone
    have hflow : process_conversation_flow { env with raiseUnexpected := false }
        { s with phone_number := q } m =
        flow_invalid_reset { env with raiseUnexpected := false } { s with phone_number := q } := by
      unfold process_conversation_flow
      rw [if_neg (by simp [hfi]), if_neg hng, if_neg hc, if_neg hp]
      dsimp only
      rw [hnone]
    rw [pm_no_raise _ rfl]
    dsimp only
    rw [hq]
    try dsimp only
    rw [hflow]
    unfold flow_invalid_reset
    dsimp only
    rw [if_neg (greeting_ne_empty env.hour)]
    exact ⟨_, rfl, rfl, rfl, rfl⟩

theorem greeting_and_invalid_step_recovery_witness :
    (∃ s2, (process_message { ({} : Env) with raiseUnexpected := false }
        (some { session_id := "w", platform := "web", current_step := "greeting",
                message_count := 1, first_interaction := false })
        "oi" "w" none "web").stored = some s2 ∧
      s2.current_step = "step1_name" ∧ s2.first_interaction = false ∧
      (process_message { ({} : Env) with raiseUnexpected := false }
        (some { session_id := "w", platform := "web", current_step := "greeting",
                message_count := 1, first_interaction := false })
        "oi" "w" none "web").result.response = step1_name_question) ∧
    (∃ s2, (process_message { ({} : Env) with raiseUnexpected := false }
        (some { session_id := "w", platform := "web", current_step := "bogus_step",
                message_count := 1, first_interaction := false })
        "oi" "w" none "web").stored = some s2 ∧
      s2.current_step = "greeting" ∧ s2.first_interaction = true ∧
      (process_message { ({} : Env) with raiseUnexpected := false }
        (some { session_id := "w", platform := "web", current_step := "bogus_step",
                message_count := 1, first_interaction := false })
        "oi" "w" none "web").result.response = get_personalized_greeting (10 : Nat)) :=
  ⟨(greeting_and_invalid_step_recovery {}
      { session_id := "w", platform := "web", current_step := "greeting",
        message_count := 1, first_interaction := false }
      "oi" "w" none "web").1 rfl rfl,
   (greeting_and_invalid_step_recovery {}
      { session_id := "w", platform := "web", current_step := "bogus_step",
        message_count := 1, first_interaction := false }
      "oi" "w" none "web").2 rfl (by decide) (by decide) (by decide)⟩

/-- **C9** — `process_message` never answers with an empty response: on the
normal path an empty generated response is replaced by the safe fallback
string, and when the unexpected top-level exception is raised the call is
answered with the initial personalized greeting under the
`orchestration_error` response type instead of propagating the error. -/
theorem response_nonempty_and_exception_fallback (env : Env) (stored : Option Session)
    (m sid : String) (pn : Option String) (p : String) :
    (process_message env stored m sid pn p).result.response ≠ "" ∧
    (process_message { env with raiseUnexpected := true } stored m sid pn p).result.response =
      get_personalized_greeting env.hour ∧
    (process_message { env with raiseUnexpected := true } stored m sid pn
      p).result.response_type = "orchestration_error" := by
  refine ⟨?_, ?_, ?_⟩
  · cases hr : env.raiseUnexpected
    · rw [pm_no_raise env hr]
      dsimp only
      split_ifs with h
      · dsimp only
        decide
      · exact h
    · unfold process_message
      rw [if_pos hr]
      dsimp only
      rw [if_pos (by simpa [bne_iff_ne] using greeting_ne_empty env.hour)]
      exact greeting_ne_empty env.hour
  · unfold process_message
    rw [if_pos rfl]
    dsimp only
    rw [if_pos (by simpa [bne_iff_ne] using greeting_ne_empty env.hour)]
  · unfold process_message
    rw [if_pos rfl]

theorem isPrefixOf_length_le : ∀ (a b : List Char), a.isPrefixOf b = true → a.length ≤ b.length
  | [], _, _ => Nat.zero_le _
  | _ :: _, [], h => by simp [List.isPrefixOf] at h
  | x :: xs, y :: ys, h => by
    simp only [List.isPrefixOf, Bool.and_eq_true] at h
    exact Nat.succ_le_succ (isPrefixOf_length_le xs ys h.2)

theorem containsSub_length {s sub : String} (h : containsSub s sub = true) :
    sub.length ≤ s.length := by
  unfold containsSub containsSubL at h
  simp only [List.any_eq_true, List.mem_range] at h
  obtain ⟨i, _, hp⟩ := h
  have h1 := isPrefixOf_length_le _ _ hp
  have h2 : (s.data.drop i).length ≤ s.data.length := by
    simp [List.length_drop]
  exact le_trans h1 h2

theorem pyLower_length (s : String) : (pyLower s).length = s.length :=
  show (s.data.map Char.toLower).length = s.data.length by rw [List.length_map]

theorem score7_forces (m2 m3 m4 ph em : String)
    (hsc : 7 ≤ calculate_qualification_score_tenths
      { identification := pyStrip m2, contact_info := pyStrip m3,
        area_qualification := pyStrip m4, phone := ph, email := em } "whatsapp") :
    pyStrip m2 ≠ "" ∧ pyStrip m3 ≠ "" ∧ pyStrip m4 ≠ "" ∧
    3 ≤ (pyStrip (pyStrip m2)).length ∧ 3 ≤ (pyStrip (pyStrip m4)).length := by
  rw [score_eq_parts] at hsc
  dsimp only at hsc
  rw [show detailPart "" = 0 from rfl] at hsc
  have h1 := idPart_le (pyStrip m2)
  have h2 := contactPart_le (pyStrip m3)
  have h3 := areaPart_le (pyStrip m4)
  have hmin : 7 ≤ idPart (pyStrip m2) + contactPart (pyStrip m3) + areaPart (pyStrip m4) + 0 :=
    le_trans hsc (min_le_left _ _)
  have hid : idPart (pyStrip m2) = 2 := by omega
  have hct : contactPart (pyStrip m3) = 3 := by omega
  have har : areaPart (pyStrip m4) = 2 := by omega
  have hidlen : 3 ≤ (pyStrip (pyStrip m2)).length := by
    unfold idPart at hid
    split_ifs at hid with ha hb <;> first | assumption | omega
  have hidne : pyStrip m2 ≠ "" := by
    intro h
    rw [h] at hidlen
    exact absurd hidlen (by decide)
  have hctne : pyStrip m3 ≠ "" := by
    unfold contactPart at hct
    split_ifs at hct with hx
    all_goals
      first
        | (intro h; rw [h] at hx; exact hx rfl)
        | omega
  have harcases : pyStrip (pyStrip m4) ≠ "" ∧
      (["penal", "saude", "saúde", "criminal", "plano"].any
        (fun keyword => containsSub (pyLower (pyStrip (pyStrip m4))) keyword)) = true := by
    unfold areaPart at har
    split_ifs at har with hx hkw
    all_goals first | exact ⟨hx, hkw⟩ | omega
  have harne : pyStrip m4 ≠ "" := by
    intro h
    rw [h] at harcases
    exact harcases.1 rfl
  have harlen : 3 ≤ (pyStrip (pyStrip m4)).length := by
    have hkw := harcases.2
    simp only [List.any_cons, List.any_nil, Bool.or_eq_true, Bool.or_false] at hkw
    rcases hkw with h | h | h | h | h
    all_goals have hl := containsSub_length h
    all_goals rw [pyLower_length] at hl
    all_goals exact le_trans (by decide) hl
  exact ⟨hidne, hctne, harne, hidlen, harlen⟩

theorem pm_stored (env : Env) (he : env.raiseUnexpected = false) (s : Session)
    (m sid p : String) :
    (process_message env (some s) m sid none p).stored =
      some { (process_conversation_flow env s m).session with
              message_count := (process_conversation_flow env s m).session.message_count + 1 } := by
  rw [pm_no_raise env he]
  rfl

theorem whatsapp_run4 (env : Env) (he : env.raiseUnexpected = false)
    (sid m1 m2 m3 m4 : String)
    (hv2 : (validate_answer m2 "step1_name").1 = true)
    (hv3 : (validate_answer m3 "step2_contact").1 = true)
    (hv4 : (validate_answer m4 "step3_area").1 = true) :
    ∃ ph em, (process_sequence env sid "whatsapp" none [m1, m2, m3, m4]).1 =
      some { session_id := sid, platform := "whatsapp", current_step := "step4_details",
             lead_data := { identification := pyStrip m2, contact_info := pyStrip m3,
                            area_qualification := pyStrip m4, phone := ph, email := em },
             message_count := 4, first_interaction := false } := by
  have ht1 : (process_message env none m1 sid none "whatsapp").stored =
      some { session_id := sid, platform := "whatsapp", current_step := "step1_name",
             message_count := 1, first_interaction := false } := by
    rw [pm_no_raise env he]
    rfl
  have hf2 : process_conversation_flow env
      { session_id := sid, platform := "whatsapp", current_step := "step1_name",
        message_count := 1, first_interaction := false } m2 =
      { session := { session_id := sid, platform := "whatsapp",
                     current_step := "step2_contact",
                     lead_data := { identification := pyStrip m2 },
                     message_count := 1, first_interaction := false },
        response := interpolate_message step2_contact_question
          { identification := pyStrip m2 },
        events := [Event.save { session_id := sid, platform := "whatsapp",
                                current_step := "step2_contact",
                                lead_data := { identification := pyStrip m2 },
                                message_count := 1, first_interaction := false }] } := by
    unfold process_conversation_flow
    rw [if_neg (by simp), if_neg (by simp), if_neg (by simp), if_neg (by simp)]
    dsimp only
    rw [show get_flow_steps env.hour "step1_name" =
      some (⟨step1_name_question, some "identification", "step2_contact"⟩ : FlowStep) from rfl]
    unfold flow_scripted_step
    dsimp only
    rw [if_neg (by simp [hv2])]
    rfl
  have ht2 : (process_message env
      (some { session_id := sid, platform := "whatsapp", current_step := "step1_name",
              message_count := 1, first_interaction := false }) m2 sid none "whatsapp").stored =
      some { session_id := sid, platform := "whatsapp", current_step := "step2_contact",
             lead_data := { identification := pyStrip m2 },
             message_count := 2, first_interaction := false } := by
    rw [pm_stored env he, hf2]
  obtain ⟨ph, em, hf3⟩ : ∃ ph em, process_conversation_flow env
      { session_id := sid, platform := "whatsapp", current_step := "step2_contact",
        lead_data := { identification := pyStrip m2 },
        message_count := 2, first_interaction := false } m3 =
      { session := { session_id := sid, platform := "whatsapp",
                     current_step := "step3_area",
                     lead_data := { identification := pyStrip m2, contact_info := pyStrip m3,
                                    phone := ph, email := em },
                     message_count := 2, first_interaction := false },
        response := interpolate_message step3_area_question
          { identification := pyStrip m2, contact_info := pyStrip m3,
            phone := ph, email := em },
        events := [Event.save { session_id := sid, platform := "whatsapp",
                                current_step := "step3_area",
                                lead_data := { identification := pyStrip m2,
                                               contact_info := pyStrip m3,
                                               phone := ph, email := em },
                                message_count := 2, first_interaction := false }] } := by
    by_cases hph : ((extract_contact_info m3).1 != "") = true <;>
      by_cases hem : ((extract_contact_info m3).2 != "") = true
    · refine ⟨(extract_contact_info m3).1, (extract_contact_info m3).2, ?_⟩
      unfold process_conversation_flow
      rw [if_neg (by simp), if_neg (by simp), if_neg (by simp), if_neg (by simp)]
      dsimp only
      rw [show get_flow_steps env.hour "step2_contact" =
        some (⟨step2_contact_question, some "contact_info", "step3_area"⟩ : FlowStep) from rfl]
      unfold flow_scripted_step
      dsimp only
      rw [if_neg (by simp [hv3]), if_pos rfl, if_pos hph, if_pos hem]
      rfl
    · refine ⟨(extract_contact_info m3).1, "", ?_⟩
      unfold process_conversation_flow
      rw [if_neg (by simp), if_neg (by simp), if_neg (by simp), if_neg (by simp)]
      dsimp only
      rw [show get_flow_steps env.hour "step2_contact" =
        some (⟨step2_contact_question, some "contact_info", "step3_area"⟩ : FlowStep) from rfl]
      unfold flow_scripted_step
      dsimp only
      rw [if_neg (by simp [hv3]), if_pos rfl, if_pos hph, if_neg hem]
      rfl
    · refine ⟨"", (extract_contact_info m3).2, ?_⟩
      unfold process_conversation_flow
      rw [if_neg (by simp), if_neg (by simp), if_neg (by simp), if_neg (by simp)]
      dsimp only
      rw [show get_flow_steps env.hour "step2_contact" =
        some (⟨step2_contact_question, some "contact_info", "step3_area"⟩ : FlowStep) from rfl]
      unfold flow_scripted_step
      dsimp only
      rw [if_neg (by simp [hv3]), if_pos rfl, if_neg hph, if_pos hem]
      rfl
    · refine ⟨"", "", ?_⟩
      unfold process_conversation_flow
      rw [if_neg (by simp), if_neg (by simp), if_neg (by simp), if_neg (by simp)]
      dsimp only
      rw [show get_flow_steps env.hour "step2_contact" =
        some (⟨step2_contact_question, some "contact_info", "step3_area"⟩ : FlowStep) from rfl]
      unfold flow_scripted_step
      dsimp only
      rw [if_neg (by simp [hv3]), if_pos rfl, if_neg hph, if_neg hem]
      rfl
  have ht3 : (process_message env
      (some { session_id := sid, platform := "whatsapp", current_step := "step2_contact",
              lead_data := { identification := pyStrip m2 },
              message_count := 2, first_interaction := false }) m3 sid none "whatsapp").stored =
      some { session_id := sid, platform := "whatsapp", current_step := "step3_area",
             lead_data := { identification := pyStrip m2, contact_info := pyStrip m3,
                            phone := ph, email := em },
             message_count := 3, first_interaction := false } := by
    rw [pm_stored env he, hf3]
  have hf4 : process_conversation_flow env
      { session_id := sid, platform := "whatsapp", current_step := "step3_area",
        lead_data := { identification := pyStrip m2, contact_info := pyStrip m3,
                       phone := ph, email := em },
        message_count := 3, first_interaction := false } m4 =
      { session := { session_id := sid, platform := "whatsapp",
                     current_step := "step4_details",
                     lead_data := { identification := pyStrip m2, contact_info := pyStrip m3,
                                    area_qualification := pyStrip m4,
                                    phone := ph, email := em },
                     message_count := 3, first_interaction := false },
        response := interpolate_message step4_details_question
          { identification := pyStrip m2, contact_info := pyStrip m3,
            area_qualification := pyStrip m4, phone := ph, email := em },
        events := [Event.save { session_id := sid, platform := "whatsapp",
                                current_step := "step4_details",
                                lead_data := { identification := pyStrip m2,
                                               contact_info := pyStrip m3,
                                               area_qualification := pyStrip m4,
                                               phone := ph, email := em },
                                message_count := 3, first_interaction := false }] } := by
    unfold process_conversation_flow
    rw [if_neg (by simp), if_neg (by simp), if_neg (by simp), if_neg (by simp)]
    dsimp only
    rw [show get_flow_steps env.hour "step3_area" =
      some (⟨step3_area_question, some "area_qualification", "step4_details"⟩ : FlowStep) from rfl]
    unfold flow_scripted_step
    dsimp only
    rw [if_neg (by simp [hv4])]
    rfl
  have ht4 : (process_message env
      (some { session_id := sid, platform := "whatsapp", current_step := "step3_area",
              lead_data := { identification := pyStrip m2, contact_info := pyStrip m3,
                             phone := ph, email := em },
              message_count := 3, first_interaction := false }) m4 sid none "whatsapp").stored =
      some { session_id := sid, platform := "whatsapp", current_step := "step4_details",
             lead_data := { identification := pyStrip m2, contact_info := pyStrip m3,
                            area_qualification := pyStrip m4, phone := ph, email := em },
             message_count := 4, first_interaction := false } := by
    rw [pm_stored env he, hf4]
  refine ⟨ph, em, ?_⟩
  simp only [process_sequence]
  try dsimp only
  rw [ht1, ht2, ht3, ht4]

theorem validate_pass_strip_len (a st : String) (h : (validate_answer a st).1 = true) :
    2 ≤ (pyStrip a).length := by
  by_cases h0 : a = "" ∨ (pyStrip a).length < 2
  · unfold validate_answer at h
    rw [if_pos h0] at h
    exact absurd h (by decide)
  · push_neg at h0
    omega

theorem strip_len_ne_empty {a : String} (h : 2 ≤ (pyStrip a).length) : pyStrip a ≠ "" := by
  intro hh
  rw [hh] at h
  exact absurd h (by decide)

/-- **C1** — The whatsapp Notification Gate fires exactly when the latch is
clear, `message_count` is at least 4, the three primary fields are present
with trimmed identification and area lengths at least 3, the step is
advanced, and the score reaches 0.7 (7 tenths); and on the session state
reached after the 4th inbound message of a fresh whatsapp conversation whose
answers pass the three validators — so `current_step` has advanced to
`step4_details` with the three fields present — the gate returns
`should_notify = true` whenever the score is at least 0.7. -/
theorem whatsapp_notification_gate (session : Session) (env : Env)
    (sid m1 m2 m3 m4 : String)
    (he : env.raiseUnexpected = false)
    (hv2 : (validate_answer m2 "step1_name").1 = true)
    (hv3 : (validate_answer m3 "step2_contact").1 = true)
    (hv4 : (validate_answer m4 "step3_area").1 = true) :
    ((should_notify_lawyers session "whatsapp").should_notify = true ↔
      (session.lawyers_notified = false ∧ 4 ≤ session.message_count ∧
       session.lead_data.identification ≠ "" ∧ session.lead_data.contact_info ≠ "" ∧
       session.lead_data.area_qualification ≠ "" ∧
       3 ≤ (pyStrip session.lead_data.identification).length ∧
       3 ≤ (pyStrip session.lead_data.area_qualification).length ∧
       (session.current_step = "step4_details" ∨ session.current_step = "step5_confirmation" ∨
        session.current_step = "completed") ∧
       7 ≤ calculate_qualification_score_tenths session.lead_data "whatsapp")) ∧
    (∀ s, (process_sequence env sid "whatsapp" none [m1, m2, m3, m4]).1 = some s →
      s.current_step = "step4_details" ∧ s.message_count = 4 ∧
      s.lead_data.identification ≠ "" ∧ s.lead_data.contact_info ≠ "" ∧
      s.lead_data.area_qualification ≠ "" ∧
      (7 ≤ calculate_qualification_score_tenths s.lead_data "whatsapp" →
        (should_notify_lawyers s "whatsapp").should_notify = true)) := by
  refine ⟨whatsapp_gate_iff session, ?_⟩
  obtain ⟨ph, em, hrun⟩ := whatsapp_run4 env he sid m1 m2 m3 m4 hv2 hv3 hv4
  intro s hs
  rw [hrun] at hs
  obtain rfl : _ = s := Option.some.inj hs
  refine ⟨rfl, rfl, strip_len_ne_empty (validate_pass_strip_len m2 _ hv2),
    strip_len_ne_empty (validate_pass_strip_len m3 _ hv3),
    strip_len_ne_empty (validate_pass_strip_len m4 _ hv4), ?_⟩
  intro hsc
  obtain ⟨hid, hct, har, hidlen, harlen⟩ := score7_forces m2 m3 m4 ph em hsc
  exact (whatsapp_gate_iff _).2
    ⟨rfl, Nat.le.refl, hid, hct, har, hidlen, harlen, Or.inl rfl, hsc⟩

theorem whatsapp_notification_gate_witness :
    (process_sequence {} "w" "whatsapp" none
        ["oi", "João Silva", "11999999999 joao@mail.com", "Direito Penal"]).1 =
      some { session_id := "w", platform := "whatsapp", current_step := "step4_details",
             lead_data := { identification := "João Silva",
                            contact_info := "11999999999 joao@mail.com",
                            area_qualification := "Direito Penal",
                            phone := "11999999999", email := "joao@mail.com" },
             message_count := 4, first_interaction := false } ∧
    (should_notify_lawyers
        { session_id := "w", platform := "whatsapp", current_step := "step4_details",
          lead_data := { identification := "João Silva",
                         contact_info := "11999999999 joao@mail.com",
                         area_qualification := "Direito Penal",
                         phone := "11999999999", email := "joao@mail.com" },
          message_count := 4, first_interaction := false } "whatsapp").should_notify = true := by
  have happ := whatsapp_notification_gate
    { session_id := "w", platform := "whatsapp", current_step := "step4_details",
      lead_data := { identification := "João Silva",
                     contact_info := "11999999999 joao@mail.com",
                     area_qualification := "Direito Penal",
                     phone := "11999999999", email := "joao@mail.com" },
      message_count := 4, first_interaction := false }
    {} "w" "oi" "João Silva" "11999999999 joao@mail.com" "Direito Penal"
    rfl (by decide) (by decide) (by decide)
  have hseq : (process_sequence {} "w" "whatsapp" none
      ["oi", "João Silva", "11999999999 joao@mail.com", "Direito Penal"]).1 =
      some { session_id := "w", platform := "whatsapp", current_step := "step4_details",
             lead_data := { identification := "João Silva",
                            contact_info := "11999999999 joao@mail.com",
                            area_qualification := "Direito Penal",
                            phone := "11999999999", email := "joao@mail.com" },
             message_count := 4, first_interaction := false } := by decide
  exact ⟨hseq, (happ.2 _ hseq).2.2.2.2.2 (by decide)⟩
